import Mathlib

/-!
Verification of the OCPP 1.6 EV-charger simulator's core engines.

This file is a shallow Lean embedding of the repository's two
near-duplicate charging-profile engines (`charging_profiles.py`, wired
into `ev_charger_simulator.py`, embedded in namespace `CP`; and
`charging_profile_handler.py`, wired in by `simulator_integration.py`,
embedded in namespace `CPH`), of the message correlator and connection
logic of `ev_charger_simulator.py` (namespaces `Corr` and `Conn`), and of
the telemetry generator of `meter_values.py` (namespace `MV`).

Conventions of the embedding:
* absolute times and durations are integers (epoch seconds); the ISO-8601
  timestamp strings of the source are modelled as already parsed
  (`Option Int`), so the source's parse-failure fallback branches
  collapse into the `none` case;
* Python floats are modelled as rationals;
* Python `%` with a positive right operand agrees with `Int.emod`, which
  is what `%` on `Int` means in Lean;
* Python dictionaries keyed by connector id are modelled as association
  lists; an uncaught `KeyError` is an `Except.error`;
* Python `list.sort(key=..., reverse=True)` is a stable descending sort,
  modelled by `List.insertionSort` with the reflexive relation
  `b.key ≤ a.key` (stable sorts by a total preorder are extensionally
  unique, so the choice of stable algorithm is immaterial);
* Python truthiness of an optional integer (`if x:`) is falsy exactly on
  `none` and `some 0`, captured by `pyTruthy`.
-/

/-- Python truthiness of an `Optional[int]`: `None` and `0` are falsy. -/
def pyTruthy : Option Int → Bool
  | none => false
  | some t => t != 0

namespace CP

/-- A charging-schedule period as read by `charging_profiles.py` from the
raw request dictionary: `period.get("startPeriod", 0)` and
`period.get("limit", 0)` (the defaults are applied at parse time here). -/
structure Period where
  startPeriod : Int
  limit : ℚ
deriving DecidableEq

/-- `charging_profiles.ChargingProfile.__init__`: the profile fields with
their parse-time defaults (`stackLevel` 0, purpose `TxDefaultProfile`,
kind `Absolute`, rate unit `A`). -/
structure ChargingProfile where
  chargingProfileId : Option Int
  transactionId : Option Int
  stackLevel : Int
  chargingProfilePurpose : String
  chargingProfileKind : String
  recurrencyKind : Option String
  validFrom : Option Int
  validTo : Option Int
  duration : Option Int
  startSchedule : Option Int
  chargingRateUnit : String
  chargingSchedulePeriods : List Period
  minChargingRate : Option ℚ
deriving DecidableEq

/-- The cached per-connector limit record `current_limits[c]` of
`ChargingProfilesManager` (keys `"power"` and `"current"`). -/
structure Limits where
  power : Option ℚ
  current : Option ℚ
deriving DecidableEq

/-- One profile survives `_get_active_profiles`: it is skipped when
`now < validFrom` or `now > validTo` (when those parse); no other check
is made in `charging_profiles.py`. -/
def profilePassesValidity (p : ChargingProfile) (now : Int) : Bool :=
  (match p.validFrom with
   | some vf => decide (vf ≤ now)
   | none => true) &&
  (match p.validTo with
   | some vt => decide (now ≤ vt)
   | none => true)

/-- `_get_active_profiles`, applied to the stored list of one connector:
keeps exactly the profiles inside their validity window. -/
def getActiveProfiles (profiles : List ChargingProfile) (now : Int) :
    List ChargingProfile :=
  profiles.filter (fun p => profilePassesValidity p now)

/-- Schedule-start computation of `_get_applicable_period`: the parsed
`startSchedule` when present; otherwise `current_time` — the source's
`Relative` branch also yields `current_time` (its comment says the
transaction start is not tracked), which the redundant conditional below
preserves. -/
def scheduleStart (p : ChargingProfile) (now : Int) : Int :=
  match p.startSchedule with
  | some ts => ts
  | none => if p.chargingProfileKind = "Relative" then now else now

/-- Recurrence reduction of `_get_applicable_period`: elapsed seconds
modulo 86400 for `Recurring`/`Daily`, modulo 604800 for
`Recurring`/`Weekly`, unchanged otherwise. -/
def recurringElapsed (p : ChargingProfile) (elapsed : Int) : Int :=
  if p.chargingProfileKind = "Recurring" then
    if p.recurrencyKind = some "Daily" then elapsed % 86400
    else if p.recurrencyKind = some "Weekly" then elapsed % 604800
    else elapsed
  else elapsed

/-- The period-selection loop of `_get_applicable_period`: walk the
stored periods, remember each period whose `startPeriod ≤ elapsed`, and
`break` at the first period with `startPeriod > elapsed`. -/
def selectPeriod (elapsed : Int) : List Period → Option Period
  | [] => none
  | per :: rest =>
    if per.startPeriod ≤ elapsed then
      match selectPeriod elapsed rest with
      | some q => some q
      | none => some per
    else none

/-- `_get_applicable_period`: combines schedule start, recurrence
reduction and the period walk. -/
def getApplicablePeriod (p : ChargingProfile) (now : Int) : Option Period :=
  if p.chargingSchedulePeriods = [] then none
  else selectPeriod (recurringElapsed p (now - scheduleStart p now))
    p.chargingSchedulePeriods

/-- The limit-application step inside `_update_current_limits`: the `"W"`
branch clamps to `max_power` and derives Amperes at 230 V; the `"A"`
branch clamps to `max_current` and derives Watts at 230 V; any other
unit leaves the cached record unchanged. -/
def applyPeriodLimits (p : ChargingProfile) (limitValue maxPower maxCurrent : ℚ)
    (prev : Limits) : Limits :=
  if p.chargingRateUnit = "W" then
    let actualPower := min limitValue maxPower
    { power := some actualPower, current := some (actualPower / 230) }
  else if p.chargingRateUnit = "A" then
    let actualCurrent := min limitValue maxCurrent
    { power := some (actualCurrent * 230), current := some actualCurrent }
  else prev

/-- The profile loop of `_update_current_limits`: the first profile (in
stored order) with an applicable period determines the limits and the
loop `break`s; if no profile has an applicable period the cached record
is left unchanged. -/
def firstApplicable (now : Int) (maxPower maxCurrent : ℚ) (prev : Limits) :
    List ChargingProfile → Limits
  | [] => prev
  | p :: rest =>
    match getApplicablePeriod p now with
    | some per => applyPeriodLimits p per.limit maxPower maxCurrent prev
    | none => firstApplicable now maxPower maxCurrent prev rest

/-- `_update_current_limits`, as a function of the profile list stored
for the connector: an empty active set resets the cache to no-limits,
otherwise the first active profile with an applicable period wins. -/
def updateCurrentLimits (profiles : List ChargingProfile) (now : Int)
    (maxPower maxCurrent : ℚ) (prev : Limits) : Limits :=
  let active := getActiveProfiles profiles now
  if active = [] then { power := none, current := none }
  else firstApplicable now maxPower maxCurrent prev active

/-- `_update_current_limits` at the store level: the source reads only
`self.charging_profiles[connector_id]` — profiles stored under
connector 0 are never consulted for other connectors in this module. -/
def updateCurrentLimitsFor (store : Int → List ChargingProfile)
    (connectorId : Int) (now : Int) (maxPower maxCurrent : ℚ)
    (prev : Limits) : Limits :=
  updateCurrentLimits (store connectorId) now maxPower maxCurrent prev

/-- The strictly-increasing-offsets and non-negative-limits walk of
`_validate_charging_profile` (`last_start_period` starts at `-1`). -/
def validatePeriodsIncreasing (lastStart : Int) : List Period → Bool
  | [] => true
  | per :: rest =>
    if per.startPeriod ≤ lastStart then false
    else if per.limit < 0 then false
    else validatePeriodsIncreasing per.startPeriod rest

/-- `_validate_charging_profile` (the source returns a message string;
every non-`"Valid"` outcome is collapsed to `false` here, as the caller
only tests against `"Valid"`): stack level, period count, the
`TxProfile` transaction rule (Python truthiness: a `transactionId` of
`None` or `0` counts as absent), then the period walk. -/
def validateChargingProfile (maxStackLevel maxPeriods : Int)
    (connectorTransactions : List (Int × Option Int))
    (p : ChargingProfile) (connectorId : Int) : Bool :=
  if p.stackLevel > maxStackLevel then false
  else if (p.chargingSchedulePeriods.length : Int) > maxPeriods then false
  else if p.chargingProfilePurpose = "TxProfile" ∧ pyTruthy p.transactionId ∧
      (connectorTransactions.lookup connectorId).getD none ≠ p.transactionId
    then false
  else if p.chargingProfilePurpose = "TxProfile" ∧ ¬ pyTruthy p.transactionId ∧
      connectorId = 0
    then false
  else validatePeriodsIncreasing (-1) p.chargingSchedulePeriods

/-- `_validate_power_limits`: valid iff every period's limit is within
the charger maximum for the profile's rate unit (`max_power` default
11000 W, `max_current` default 48 A); unknown units pass. -/
def validatePowerLimits (maxPower maxCurrent : ℚ) (p : ChargingProfile) : Bool :=
  p.chargingSchedulePeriods.all (fun per =>
    if p.chargingRateUnit = "W" then decide (per.limit ≤ maxPower)
    else if p.chargingRateUnit = "A" then decide (per.limit ≤ maxCurrent)
    else true)

/-- The `charging_profiles` dictionary: connector id to stored list. -/
abbrev Store := List (Int × List ChargingProfile)

/-- The `current_limits` dictionary: connector id to cached limits. -/
abbrev LimitsMap := List (Int × Limits)

/-- The mutable state of `ChargingProfilesManager`. -/
structure ManagerState where
  chargingProfiles : Store
  currentLimits : LimitsMap
deriving DecidableEq

/-- `__init__`: keys `0 .. number_of_connectors`, each with an empty
profile list. -/
def initStore (n : Nat) : Store :=
  (List.range (n + 1)).map (fun i => ((i : Int), []))

/-- `__init__`: keys `0 .. number_of_connectors`, each with no limits. -/
def initLimits (n : Nat) : LimitsMap :=
  (List.range (n + 1)).map (fun i => ((i : Int), { power := none, current := none }))

/-- The manager state right after `__init__`. -/
def initState (n : Nat) : ManagerState :=
  { chargingProfiles := initStore n, currentLimits := initLimits n }

/-- `self.charging_profiles[k]`: a missing key is a `KeyError`. -/
def storeLookup (s : Store) (k : Int) : Except String (List ChargingProfile) :=
  match s.lookup k with
  | some v => Except.ok v
  | none => Except.error "KeyError"

/-- Assignment `self.charging_profiles[k] = v` for a key already present
(the source only ever assigns keys created by `__init__`). -/
def storeSet (s : Store) (k : Int) (v : List ChargingProfile) : Store :=
  s.map (fun kv => if kv.1 = k then (k, v) else kv)

/-- Assignment `self.current_limits[k] = v` for a key already present. -/
def limitsSet (m : LimitsMap) (k : Int) (v : Limits) : LimitsMap :=
  m.map (fun kv => if kv.1 = k then (k, v) else kv)

/-- Read of the cached `current_limits[k]` (always present in-range). -/
def limitsGet (m : LimitsMap) (k : Int) : Limits :=
  (m.lookup k).getD { power := none, current := none }

/-- The conflict test of `_remove_conflicting_profiles`: same id, or same
(`stackLevel`, `purpose`) pair. -/
def conflictsWith (existing p : ChargingProfile) : Bool :=
  existing.chargingProfileId == p.chargingProfileId ||
  (existing.stackLevel == p.stackLevel &&
   existing.chargingProfilePurpose == p.chargingProfilePurpose)

/-- `_remove_conflicting_profiles`: drop every stored profile that
conflicts with the incoming one (collect-then-remove in the source is
order-preserving removal, i.e. a filter). -/
def removeConflictingProfiles (profiles : List ChargingProfile)
    (p : ChargingProfile) : List ChargingProfile :=
  profiles.filter (fun q => ! conflictsWith q p)

/-- The sort key of `handle_set_charging_profile`: stable descending sort
by `stack_level` (`list.sort(key=..., reverse=True)`). -/
def stackGE (a b : ChargingProfile) : Prop := b.stackLevel ≤ a.stackLevel

instance : DecidableRel stackGE := fun a b =>
  inferInstanceAs (Decidable (b.stackLevel ≤ a.stackLevel))

/-- Stable descending sort by stack level, as Python's `list.sort` with
`reverse=True` performs. -/
def sortByStackDesc (l : List ChargingProfile) : List ChargingProfile :=
  l.insertionSort stackGE

/-- The insertion pipeline of `handle_set_charging_profile` on one
connector's stored list: evict conflicting profiles, append the new one,
then sort by stack level descending. -/
def insertProfile (profiles : List ChargingProfile) (p : ChargingProfile) :
    List ChargingProfile :=
  sortByStackDesc (removeConflictingProfiles profiles p ++ [p])

/-- The per-connector uniqueness invariant of the profile store: no two
stored profiles share an id, and no two share their
(`stackLevel`, `purpose`) pair. -/
def noConflicts (l : List ChargingProfile) : Prop :=
  l.Pairwise (fun a b =>
    a.chargingProfileId ≠ b.chargingProfileId ∧
    ¬(a.stackLevel = b.stackLevel ∧
      a.chargingProfilePurpose = b.chargingProfilePurpose))

/-- The mutation tail of `handle_set_charging_profile` (evict conflicts,
append, sort, recompute the connector's cached limits); the only fallible
step is the store lookup, which precedes every mutation. -/
def acceptProfile (st : ManagerState) (connectorId : Int) (p : ChargingProfile)
    (now : Int) (maxPower maxCurrent : ℚ) :
    Except String (String × ManagerState) := do
  let profiles ← storeLookup st.chargingProfiles connectorId
  let sorted := insertProfile profiles p
  let store2 := storeSet st.chargingProfiles connectorId sorted
  let newLimits := updateCurrentLimits sorted now maxPower maxCurrent
    (limitsGet st.currentLimits connectorId)
  let st2 : ManagerState :=
    { chargingProfiles := store2,
      currentLimits := limitsSet st.currentLimits connectorId newLimits }
  Except.ok ("Accepted", st2)

/-- Configuration and collaborator state consulted by
`ChargingProfilesManager`: connector count, the parsed
`ChargingScheduleAllowedChargingRateUnit` list, the
`ChargeProfileMaxStackLevel` and `ChargingScheduleMaxPeriods` values, the
simulated charger maxima, and the transaction registry. -/
structure Config where
  numberOfConnectors : Int
  allowedUnitsList : List String
  maxStackLevel : Int
  maxPeriods : Int
  maxPower : ℚ
  maxCurrent : ℚ
  connectorTransactions : List (Int × Option Int)
deriving DecidableEq

/-- `handle_set_charging_profile`: connector-range check, profile
validation, allowed-units check, power-limit check — all before any
mutation — then the accept path; the source's `try`/`except` maps an
internal exception to `"Rejected"` with the pre-call state (the only
fallible step precedes every mutation). -/
def handleSetChargingProfile (cfg : Config) (st : ManagerState)
    (connectorId : Int) (p : ChargingProfile) (now : Int) :
    String × ManagerState :=
  if connectorId < 0 ∨ connectorId > cfg.numberOfConnectors then ("Rejected", st)
  else if ! validateChargingProfile cfg.maxStackLevel cfg.maxPeriods
      cfg.connectorTransactions p connectorId then ("Rejected", st)
  else if p.chargingRateUnit = "W" ∧ "Power" ∉ cfg.allowedUnitsList then
    ("NotSupported", st)
  else if p.chargingRateUnit = "A" ∧ "Current" ∉ cfg.allowedUnitsList then
    ("NotSupported", st)
  else if ! validatePowerLimits cfg.maxPower cfg.maxCurrent p then ("Rejected", st)
  else
    match acceptProfile st connectorId p now cfg.maxPower cfg.maxCurrent with
    | Except.ok r => r
    | Except.error _ => ("Rejected", st)

/-- A `ClearChargingProfile` request payload as read by
`handle_clear_charging_profile`. -/
structure ClearRequest where
  id : Option Int
  connectorId : Option Int
  chargingProfilePurpose : Option String
  stackLevel : Option Int
deriving DecidableEq

/-- The per-profile matching test of `handle_clear_charging_profile`:
match by id, or (only when the request carries both a `connectorId` and
a purpose) by purpose with an optional stack-level narrowing. -/
def clearMatches (req : ClearRequest) (p : ChargingProfile) : Bool :=
  if req.id.isSome && (p.chargingProfileId == req.id) then true
  else if req.connectorId.isSome && req.chargingProfilePurpose.isSome &&
      (some p.chargingProfilePurpose == req.chargingProfilePurpose) then
    req.stackLevel.isNone || (some p.stackLevel == req.stackLevel)
  else false

/-- `handle_clear_charging_profile`: scan the requested connector (or all
connectors when none is given), remove matching profiles, recompute the
limits of each touched connector, and answer `"Accepted"` iff anything
was removed. The per-connector access `self.charging_profiles[conn_id]`
is unguarded — an out-of-range explicit `connectorId` raises an uncaught
`KeyError`, surfaced as `Except.error`. -/
def handleClearChargingProfile (cfg : Config) (req : ClearRequest)
    (st : ManagerState) (now : Int) :
    Except String (String × ManagerState) := do
  let connectorsToCheck : List Int :=
    match req.connectorId with
    | some c => [c]
    | none => (List.range (cfg.numberOfConnectors.toNat + 1)).map Int.ofNat
  let result ← connectorsToCheck.foldlM
    (fun (acc : Bool × ManagerState) connId => do
      let profiles ← storeLookup acc.2.chargingProfiles connId
      let toRemove := profiles.filter (fun p => clearMatches req p)
      if toRemove = [] then pure acc
      else
        let kept := profiles.filter (fun p => ! clearMatches req p)
        let store2 := storeSet acc.2.chargingProfiles connId kept
        let newLimits := updateCurrentLimits kept now cfg.maxPower cfg.maxCurrent
          (limitsGet acc.2.currentLimits connId)
        let st2 : ManagerState :=
          { chargingProfiles := store2,
            currentLimits := limitsSet acc.2.currentLimits connId newLimits }
        pure (true, st2))
    (false, st)
  Except.ok ((if result.1 then "Accepted" else "Unknown"), result.2)

end CP

namespace CPH

/-- `charging_profile_handler.ChargingSchedulePeriod`: `startPeriod`
(default 0), `limit` (default 0), optional `numberPhases`. -/
structure Period where
  startPeriod : Int
  limit : ℚ
  numberPhases : Option Int
deriving DecidableEq

/-- `charging_profile_handler.ChargingSchedule`: duration, optional
parsed `startSchedule`, rate unit (default `"W"`), optional minimum
rate, and the period list (sorted by `startPeriod` at construction). -/
structure Schedule where
  duration : Option Int
  startSchedule : Option Int
  chargingRateUnit : String
  minChargingRate : Option ℚ
  periods : List Period
deriving DecidableEq

/-- The constructor's `periods.sort(key=lambda p: p.start_period)`:
stable ascending sort by start offset. -/
def sortPeriods (l : List Period) : List Period :=
  l.insertionSort (fun a b => a.startPeriod ≤ b.startPeriod)

/-- `charging_profile_handler.ChargingProfile`: purpose and kind carry no
parse-time default (`dict.get` yields `None`), and `createdAt` records
the acceptance time `datetime.now(timezone.utc)`. -/
structure Profile where
  chargingProfileId : Option Int
  transactionId : Option Int
  stackLevel : Int
  chargingProfilePurpose : Option String
  chargingProfileKind : Option String
  recurrencyKind : Option String
  validFrom : Option Int
  validTo : Option Int
  chargingSchedule : Schedule
  createdAt : Int
deriving DecidableEq

/-- The effective-limit record of `ChargingProfileHandler`
(`power_limit` in Watts, `current_limit` in Amperes, plus
`min_charging_rate`). -/
structure Limits where
  powerLimit : Option ℚ
  currentLimit : Option ℚ
  minChargingRate : Option ℚ
deriving DecidableEq

/-- The all-absent limit record. -/
def noLimits : Limits :=
  { powerLimit := none, currentLimit := none, minChargingRate := none }

/-- `_is_profile_active`: inactive when `now` is before `validFrom` or
after `validTo` (when those parse), or when the purpose is `TxProfile`
with a truthy `transactionId` that is not the active transaction of any
connector; active otherwise. -/
def isProfileActive (p : Profile) (now : Int)
    (connectorTransactions : List (Int × Option Int)) : Bool :=
  if p.validFrom.any (fun vf => decide (now < vf)) then false
  else if p.validTo.any (fun vt => decide (vt < now)) then false
  else if p.chargingProfilePurpose == some "TxProfile" && pyTruthy p.transactionId then
    connectorTransactions.any (fun kv => kv.2 == p.transactionId)
  else true

/-- Schedule-start computation of `_get_current_period_limit`: the
parsed `startSchedule` when present; else `createdAt` for a `Relative`
profile; else `now`. -/
def scheduleStart (p : Profile) (now : Int) : Int :=
  match p.chargingSchedule.startSchedule with
  | some ts => ts
  | none =>
    if p.chargingProfileKind = some "Relative" then p.createdAt else now

/-- Recurrence reduction of `_get_current_period_limit` (identical to the
`charging_profiles.py` copy). -/
def recurringElapsed (p : Profile) (elapsed : Int) : Int :=
  if p.chargingProfileKind = some "Recurring" then
    if p.recurrencyKind = some "Daily" then elapsed % 86400
    else if p.recurrencyKind = some "Weekly" then elapsed % 604800
    else elapsed
  else elapsed

/-- The period-selection loop of `_get_current_period_limit`: remember
each period with `startPeriod ≤ elapsed`, `break` at the first period
beyond `elapsed`. -/
def selectPeriod (elapsed : Int) : List Period → Option Period
  | [] => none
  | per :: rest =>
    if per.startPeriod ≤ elapsed then
      match selectPeriod elapsed rest with
      | some q => some q
      | none => some per
    else none

/-- `_get_current_period_limit`: the applicable period's limit, or
`none` when the schedule is empty or no period has started yet. -/
def getCurrentPeriodLimit (p : Profile) (now : Int) : Option ℚ :=
  if p.chargingSchedule.periods = [] then none
  else
    (selectPeriod (recurringElapsed p (now - scheduleStart p now))
      p.chargingSchedule.periods).map (fun per => per.limit)

/-- The limit-record construction inside `_calculate_effective_limits`:
Watts profiles also report Amperes at 230 V, Amperes profiles also
report Watts at 230 V, and `minChargingRate` is carried through. -/
def limitsOfProfile (p : Profile) (l : ℚ) : Limits :=
  let base :=
    if p.chargingSchedule.chargingRateUnit = "W" then
      { noLimits with powerLimit := some l, currentLimit := some (l / 230) }
    else if p.chargingSchedule.chargingRateUnit = "A" then
      { noLimits with currentLimit := some l, powerLimit := some (l * 230) }
    else noLimits
  { base with minChargingRate := p.chargingSchedule.minChargingRate }

/-- The stable descending sort by stack level used on the gathered
profile list (`all_profiles.sort(key=..., reverse=True)`). -/
def stackGE (a b : Profile) : Prop := b.stackLevel ≤ a.stackLevel

instance : DecidableRel stackGE := fun a b =>
  inferInstanceAs (Decidable (b.stackLevel ≤ a.stackLevel))

/-- Stable descending sort by stack level. -/
def sortByStackDesc (l : List Profile) : List Profile :=
  l.insertionSort stackGE

/-- The winner loop of `_calculate_effective_limits`: the first profile
(highest stack level after sorting) whose schedule yields a current
period limit determines the record; profiles with no current period are
passed over. -/
def firstWithLimit (now : Int) : List Profile → Limits
  | [] => noLimits
  | p :: rest =>
    match getCurrentPeriodLimit p now with
    | some l => limitsOfProfile p l
    | none => firstWithLimit now rest

/-- The gathering step of `_calculate_effective_limits`: the connector's
own active profiles followed by, when `connectorId > 0`, the active
profiles stored under connector 0. -/
def gatherActiveProfiles (store : Int → List Profile) (connectorId : Int)
    (now : Int) (connectorTransactions : List (Int × Option Int)) :
    List Profile :=
  (store connectorId).filter (fun p => isProfileActive p now connectorTransactions) ++
  (if 0 < connectorId then
    (store 0).filter (fun p => isProfileActive p now connectorTransactions)
  else [])

/-- `_calculate_effective_limits`: gather, sort by stack level
descending, and let the first profile with a current period limit win. -/
def calculateEffectiveLimits (store : Int → List Profile) (connectorId : Int)
    (now : Int) (connectorTransactions : List (Int × Option Int)) : Limits :=
  let allProfiles := gatherActiveProfiles store connectorId now connectorTransactions
  if allProfiles = [] then noLimits
  else firstWithLimit now (sortByStackDesc allProfiles)

end CPH

namespace Corr

/-- The per-request timeout passed to `asyncio.wait_for` in
`send_call` (`timeout=30`). -/
def callTimeoutSeconds : Nat := 30

/-- The three ways a pending request can be resolved: a matching Result
envelope, a matching Error envelope, or the 30-second timeout. -/
inductive Outcome where
  | result
  | protocolError
  | timeout
deriving DecidableEq

/-- The correlator's observable state: the ids with a registered
`PendingRequest` (`self.pending_requests`), and the outcome delivered to
each already-resolved caller (a future, once resolved, keeps its first
value — modelled by first-match lookup in an append-only list). -/
structure State where
  pending : List String
  resolved : List (String × Outcome)
deriving DecidableEq

/-- The events that touch the pending-request table: `send_call`
registering a fresh id, `handle_call_result`, `handle_call_error`, and
the `asyncio.TimeoutError` branch of `send_call`. -/
inductive Event where
  | send (id : String)
  | callResult (id : String)
  | callError (id : String)
  | timeoutFires (id : String)
deriving DecidableEq

/-- The id an event concerns. -/
def Event.targetId : Event → String
  | Event.send i => i
  | Event.callResult i => i
  | Event.callError i => i
  | Event.timeoutFires i => i

/-- One step of the correlator, straight from
`ev_charger_simulator.py`: `handle_call_result` and `handle_call_error`
resolve and delete the entry only `if message_id in self.pending_requests`
(otherwise the message is silently ignored); the timeout branch of
`send_call` deletes the entry and fails the caller with a timeout error
(the timeout can only fire while the future is unresolved, i.e. while
the id is still registered); `send_call` registers the id. -/
def step (s : State) (e : Event) : State :=
  match e with
  | Event.send i => { s with pending := s.pending ++ [i] }
  | Event.callResult i =>
    if i ∈ s.pending then
      { pending := s.pending.erase i,
        resolved := s.resolved ++ [(i, Outcome.result)] }
    else s
  | Event.callError i =>
    if i ∈ s.pending then
      { pending := s.pending.erase i,
        resolved := s.resolved ++ [(i, Outcome.protocolError)] }
    else s
  | Event.timeoutFires i =>
    if i ∈ s.pending then
      { pending := s.pending.erase i,
        resolved := s.resolved ++ [(i, Outcome.timeout)] }
    else s

/-- Run a sequence of events. -/
def run (s : State) (evs : List Event) : State :=
  evs.foldl step s

end Corr

namespace Conn

/-- The three connection strategies of `connect()`, in source order:
`_connect_with_headers`, `_connect_with_embedded_auth`,
`_connect_basic`. -/
inductive Strategy where
  | withHeaders
  | withEmbeddedAuth
  | basic
deriving DecidableEq

/-- Outcome of one strategy attempt: success (`is_connected` set), an
`InvalidStatus` rejection with its HTTP status code, or any other
exception. -/
inductive AttemptResult where
  | success
  | invalidStatus (code : Int)
  | otherFailure
deriving DecidableEq

/-- Result of the whole connect cycle: connected via some strategy,
terminated by a 401-class rejection, or fell off the end of the list
(leading to `handle_connection_failure`). -/
inductive ConnectResult where
  | connected (s : Strategy)
  | authFailed
  | allFailed
deriving DecidableEq

/-- The `connection_methods` list of `connect()`, in order. -/
def connectionMethods : List Strategy :=
  [Strategy.withHeaders, Strategy.withEmbeddedAuth, Strategy.basic]

/-- The strategy loop of `connect()`: stop at the first success; a 401
`InvalidStatus` returns immediately without trying further methods; any
other failure falls through to the next method; an exhausted list means
all methods failed. -/
def connectLoop (attempt : Strategy → AttemptResult) :
    List Strategy → ConnectResult
  | [] => ConnectResult.allFailed
  | m :: rest =>
    match attempt m with
    | AttemptResult.success => ConnectResult.connected m
    | AttemptResult.invalidStatus code =>
      if code = 401 then ConnectResult.authFailed else connectLoop attempt rest
    | AttemptResult.otherFailure => connectLoop attempt rest

/-- `connect()` over the fixed strategy list. -/
def connect (attempt : Strategy → AttemptResult) : ConnectResult :=
  connectLoop attempt connectionMethods

end Conn

namespace MV

/-- Python `int()` applied to a float: truncation toward zero. -/
def pyInt (x : ℚ) : Int :=
  if 0 ≤ x then ⌊x⌋ else ⌈x⌉

/-- Python `%` between floats with a positive right operand. -/
def pyFloatMod (x m : ℚ) : ℚ :=
  x - m * ((⌊x / m⌋ : ℤ) : ℚ)

/-- The per-connector meter-value fields of `initialize_connector` that
the sampling code reads or writes (the remaining keys of the source are
constants never consulted by `_generate_sampled_values`). -/
structure MeterState where
  energyActiveImportRegister : ℚ
  powerActiveImport : ℚ
  currentImport : ℚ
  soc : ℚ
  energyReactiveImportRegister : ℚ
  voltage : ℚ
  temperature : ℚ
  powerOffered : ℚ
  currentOffered : ℚ
  powerFactor : ℚ
  frequency : ℚ
deriving DecidableEq

/-- `initialize_connector`: register 0, 7.4 kW baseline, 32 A, 50 % SoC,
230 V, 25 °C, PF 0.95, 50 Hz. -/
def initConnector : MeterState :=
  { energyActiveImportRegister := 0, powerActiveImport := 7400,
    currentImport := 32, soc := 50, energyReactiveImportRegister := 0,
    voltage := 230, temperature := 25, powerOffered := 7400,
    currentOffered := 32, powerFactor := 95 / 100, frequency := 50 }

/-- The effective limits consulted on each tick
(`charging_profiles_manager.get_current_limit(connector_id)`). -/
structure CurrentLimits where
  power : Option ℚ
  current : Option ℚ
deriving DecidableEq

/-- One emitted sampled value: its measurand name and the numeric value
before wire formatting (the source then renders it with `str(int(...))`
or a fixed-decimal format, which never increases it for the
non-negative quantities involved). -/
structure Sample where
  measurand : String
  value : ℚ
deriving DecidableEq

/-- One measurand case of `_generate_sampled_values`: returns the
updated meter state and the emitted sample (none for unrecognized
measurands, which the source skips). -/
def generateSampledValue (limits : CurrentLimits) (sampleInterval : Int)
    (st : MeterState) (measurand : String) : MeterState × Option Sample :=
  if measurand = "Energy.Active.Import.Register" then
    let actualPower :=
      match limits.power with
      | some l => min st.powerActiveImport l
      | none => st.powerActiveImport
    let energyIncrement := actualPower * (sampleInterval : ℚ) / 3600
    let newRegister := st.energyActiveImportRegister + energyIncrement
    ({ st with energyActiveImportRegister := newRegister },
      some { measurand := measurand, value := newRegister })
  else if measurand = "Power.Active.Import" then
    match limits.power with
    | some l =>
      let actualPower := min st.powerActiveImport l
      ({ st with powerActiveImport := actualPower },
        some { measurand := measurand, value := actualPower })
    | none =>
      let actualPower := st.powerActiveImport +
        ((pyInt st.energyActiveImportRegister % 100 : ℤ) : ℚ)
      (st, some { measurand := measurand, value := actualPower })
  else if measurand = "SoC" then
    if sampleInterval ≠ 0 then
      let newSoc := min 100 (st.soc + (1 / 10 : ℚ) * ((sampleInterval : ℚ) / 60))
      ({ st with soc := newSoc }, some { measurand := measurand, value := newSoc })
    else
      (st, some { measurand := measurand, value := st.soc })
  else if measurand = "Current.Import" then
    match limits.current with
    | some l =>
      let actualCurrent := min st.currentImport l
      ({ st with currentImport := actualCurrent },
        some { measurand := measurand, value := actualCurrent })
    | none =>
      let actualCurrent := st.currentImport +
        (pyFloatMod st.energyActiveImportRegister 10) / 10
      (st, some { measurand := measurand, value := actualCurrent })
  else if measurand = "Voltage" then
    let v := st.voltage + pyFloatMod st.energyActiveImportRegister 5 - 5 / 2
    (st, some { measurand := measurand, value := v })
  else if measurand = "Temperature" then
    let v := st.temperature + (pyFloatMod st.energyActiveImportRegister 10) / 5
    (st, some { measurand := measurand, value := v })
  else if measurand = "Power.Offered" then
    (st, some { measurand := measurand, value := st.powerOffered })
  else if measurand = "Current.Offered" then
    (st, some { measurand := measurand, value := st.currentOffered })
  else if measurand = "Power.Factor" then
    (st, some { measurand := measurand, value := st.powerFactor })
  else if measurand = "Frequency" then
    (st, some { measurand := measurand, value := st.frequency })
  else if measurand = "Energy.Reactive.Import.Register" then
    let newReg := st.energyReactiveImportRegister + 20
    ({ st with energyReactiveImportRegister := newReg },
      some { measurand := measurand, value := newReg })
  else if measurand = "Power.Reactive.Import" then
    let v := st.powerActiveImport * (33 / 100)
    (st, some { measurand := measurand, value := v })
  else (st, none)

/-- `_generate_sampled_values`: fold the measurand list through the
per-measurand step, threading the meter state. -/
def generateSampledValues (limits : CurrentLimits) (sampleInterval : Int)
    (st : MeterState) : List String → MeterState × List Sample
  | [] => (st, [])
  | m :: rest =>
    let first := generateSampledValue limits sampleInterval st m
    let next := generateSampledValues limits sampleInterval first.1 rest
    (next.1, (match first.2 with | some s => [s] | none => []) ++ next.2)

/-- The tick recursion of `send_meter_values_loop`: each tick generates
samples and sends a `MeterValues` payload only when the sample list is
non-empty (`if sampled_values:`). The `ticks` argument bounds the
observed prefix of the loop. -/
def meterTicks (sampleInterval : Int) (measurands : List String)
    (limits : CurrentLimits) : Nat → MeterState → List (List Sample)
  | 0, _ => []
  | n + 1, st =>
    let r := generateSampledValues limits sampleInterval st measurands
    if r.2 = [] then meterTicks sampleInterval measurands limits n r.1
    else r.2 :: meterTicks sampleInterval measurands limits n r.1

/-- `send_meter_values_loop`: a `MeterValueSampleInterval` of 0 returns
before the loop and nothing is ever emitted; otherwise each tick emits
its generated report. -/
def sendMeterValuesLoop (sampleInterval : Int) (measurands : List String)
    (limits : CurrentLimits) (st : MeterState) (ticks : Nat) :
    List (List Sample) :=
  if sampleInterval = 0 then []
  else meterTicks sampleInterval measurands limits ticks st

end MV

/-- Modelled from the spec: the claimed schedule-start rule of §4.4 —
"its explicit `startTimestamp` if present; else, if `kind = Relative`,
the profile's acceptance time (`createdAt`); else `now`". Used to compare
the claimed rule against the code's schedule-start computations. -/
def claimedScheduleStart (startTimestamp : Option Int) (kind : String)
    (createdAt now : Int) : Int :=
  match startTimestamp with
  | some ts => ts
  | none => if kind = "Relative" then createdAt else now

/-- A `ChargePointMaxProfile` stored under connector 0: always valid,
Watts, a single all-day period limiting to 5000 W. Used to probe the
connector-0 gathering behaviour of both modules. -/
def cpMaxOnConnector0 : CP.ChargingProfile :=
  { chargingProfileId := some 7, transactionId := none, stackLevel := 3,
    chargingProfilePurpose := "ChargePointMaxProfile",
    chargingProfileKind := "Absolute", recurrencyKind := none,
    validFrom := none, validTo := none, duration := none,
    startSchedule := some 0, chargingRateUnit := "W",
    chargingSchedulePeriods := [{ startPeriod := 0, limit := 5000 }],
    minChargingRate := none }

/-- A `charging_profiles.py` store holding only `cpMaxOnConnector0`
under connector 0 (connectors 1..N empty). -/
def cpMaxStore : Int → List CP.ChargingProfile :=
  fun c => if c = 0 then [cpMaxOnConnector0] else []

/-- A `TxProfile` bound to transaction 99 with no validity bounds, in the
`charging_profiles.py` data model. -/
def txProfile99 : CP.ChargingProfile :=
  { chargingProfileId := some 9, transactionId := some 99, stackLevel := 5,
    chargingProfilePurpose := "TxProfile",
    chargingProfileKind := "Absolute", recurrencyKind := none,
    validFrom := none, validTo := none, duration := none,
    startSchedule := some 0, chargingRateUnit := "W",
    chargingSchedulePeriods := [{ startPeriod := 0, limit := 4000 }],
    minChargingRate := none }

/-- A `Relative`-kind profile without an explicit start timestamp, in the
`charging_profiles.py` data model; were the claimed rule followed, its
schedule would start at the acceptance time (time 0 in the scenario). -/
def relProfileCP : CP.ChargingProfile :=
  { chargingProfileId := some 11, transactionId := none, stackLevel := 2,
    chargingProfilePurpose := "TxDefaultProfile",
    chargingProfileKind := "Relative", recurrencyKind := none,
    validFrom := none, validTo := none, duration := none,
    startSchedule := none, chargingRateUnit := "W",
    chargingSchedulePeriods :=
      [{ startPeriod := 0, limit := 10 }, { startPeriod := 3600, limit := 20 }],
    minChargingRate := none }

/-- The `Recurring`/`Daily` profile of the spec's period-selection test:
periods (0 s, 11000) and (3600 s, 7400), schedule starting at time 0, in
the `charging_profile_handler.py` data model. -/
def dailyProfileCPH : CPH.Profile :=
  { chargingProfileId := some 1, transactionId := none, stackLevel := 1,
    chargingProfilePurpose := some "TxDefaultProfile",
    chargingProfileKind := some "Recurring", recurrencyKind := some "Daily",
    validFrom := none, validTo := none,
    chargingSchedule :=
      { duration := none, startSchedule := some 0,
        chargingRateUnit := "W", minChargingRate := none,
        periods :=
          [{ startPeriod := 0, limit := 11000, numberPhases := none },
           { startPeriod := 3600, limit := 7400, numberPhases := none }] },
    createdAt := 0 }

/-- The same `Recurring`/`Daily` test profile in the
`charging_profiles.py` data model. -/
def dailyProfileCP : CP.ChargingProfile :=
  { chargingProfileId := some 1, transactionId := none, stackLevel := 1,
    chargingProfilePurpose := "TxDefaultProfile",
    chargingProfileKind := "Recurring", recurrencyKind := some "Daily",
    validFrom := none, validTo := none, duration := none,
    startSchedule := some 0, chargingRateUnit := "W",
    chargingSchedulePeriods :=
      [{ startPeriod := 0, limit := 11000 }, { startPeriod := 3600, limit := 7400 }],
    minChargingRate := none }

/-- The `ChargePointMaxProfile` test profile in the handler module's
data model: always valid, Watts, one all-day 5000 W period, stack
level 3. -/
def cpMaxOnConnector0CPH : CPH.Profile :=
  { chargingProfileId := some 7, transactionId := none, stackLevel := 3,
    chargingProfilePurpose := some "ChargePointMaxProfile",
    chargingProfileKind := some "Absolute", recurrencyKind := none,
    validFrom := none, validTo := none,
    chargingSchedule :=
      { duration := none, startSchedule := some 0, chargingRateUnit := "W",
        minChargingRate := none,
        periods := [{ startPeriod := 0, limit := 5000, numberPhases := none }] },
    createdAt := 0 }

/-- A connector-3 profile with higher stack level 5, Watts, one all-day
3000 W period, in the handler module's data model. -/
def conn3ProfileCPH : CPH.Profile :=
  { chargingProfileId := some 8, transactionId := none, stackLevel := 5,
    chargingProfilePurpose := some "TxDefaultProfile",
    chargingProfileKind := some "Absolute", recurrencyKind := none,
    validFrom := none, validTo := none,
    chargingSchedule :=
      { duration := none, startSchedule := some 0, chargingRateUnit := "W",
        minChargingRate := none,
        periods := [{ startPeriod := 0, limit := 3000, numberPhases := none }] },
    createdAt := 0 }

/-- A handler-module store with only the charge-point-max profile under
connector 0. -/
def cpMaxOnlyStoreCPH : Int → List CPH.Profile :=
  fun c => if c = 0 then [cpMaxOnConnector0CPH] else []

/-- A handler-module store with the charge-point-max profile under
connector 0 and the higher-stack profile under connector 3. -/
def overrideStoreCPH : Int → List CPH.Profile :=
  fun c =>
    if c = 0 then [cpMaxOnConnector0CPH]
    else if c = 3 then [conn3ProfileCPH] else []

theorem CP.cpSelectPeriod_eq_getLast (e : Int) (l : List CP.Period)
    (hl : l.Pairwise (fun a b => a.startPeriod < b.startPeriod)) :
    CP.selectPeriod e l =
      (l.filter (fun per => decide (per.startPeriod ≤ e))).getLast? := by
  induction l with
  | nil => rfl
  | cons p ps ih =>
    rcases List.pairwise_cons.mp hl with ⟨hp, hps⟩
    by_cases hpe : p.startPeriod ≤ e
    · have hrec := ih hps
      cases hsel : CP.selectPeriod e ps with
      | none =>
        have hfil : ps.filter (fun per => decide (per.startPeriod ≤ e)) = [] := by
          rw [hsel] at hrec
          exact List.getLast?_eq_none_iff.mp hrec.symm
        simp [CP.selectPeriod, hpe, hsel, hfil]
      | some q =>
        rw [hsel] at hrec
        obtain ⟨c, t, hct⟩ : ∃ c t,
            ps.filter (fun per => decide (per.startPeriod ≤ e)) = c :: t := by
          cases hft : ps.filter (fun per => decide (per.startPeriod ≤ e)) with
          | nil => rw [hft] at hrec; simp at hrec
          | cons c t => exact ⟨c, t, rfl⟩
        rw [hct] at hrec
        simp [CP.selectPeriod, hpe, hsel, hct, ← hrec]
    · have hfil : ps.filter (fun per => decide (per.startPeriod ≤ e)) = [] := by
        rw [List.filter_eq_nil_iff]
        intro a ha
        have := hp a ha
        simp only [decide_eq_true_eq]
        omega
      simp [CP.selectPeriod, hpe, hfil]

theorem CPH.cphSelectPeriod_eq_getLast (e : Int) (l : List CPH.Period)
    (hl : l.Pairwise (fun a b => a.startPeriod < b.startPeriod)) :
    CPH.selectPeriod e l =
      (l.filter (fun per => decide (per.startPeriod ≤ e))).getLast? := by
  induction l with
  | nil => rfl
  | cons p ps ih =>
    rcases List.pairwise_cons.mp hl with ⟨hp, hps⟩
    by_cases hpe : p.startPeriod ≤ e
    · have hrec := ih hps
      cases hsel : CPH.selectPeriod e ps with
      | none =>
        have hfil : ps.filter (fun per => decide (per.startPeriod ≤ e)) = [] := by
          rw [hsel] at hrec
          exact List.getLast?_eq_none_iff.mp hrec.symm
        simp [CPH.selectPeriod, hpe, hsel, hfil]
      | some q =>
        rw [hsel] at hrec
        obtain ⟨c, t, hct⟩ : ∃ c t,
            ps.filter (fun per => decide (per.startPeriod ≤ e)) = c :: t := by
          cases hft : ps.filter (fun per => decide (per.startPeriod ≤ e)) with
          | nil => rw [hft] at hrec; simp at hrec
          | cons c t => exact ⟨c, t, rfl⟩
        rw [hct] at hrec
        simp [CPH.selectPeriod, hpe, hsel, hct, ← hrec]
    · have hfil : ps.filter (fun per => decide (per.startPeriod ≤ e)) = [] := by
        rw [List.filter_eq_nil_iff]
        intro a ha
        have := hp a ha
        simp only [decide_eq_true_eq]
        omega
      simp [CPH.selectPeriod, hpe, hfil]

/-- C2: for the winning profile, the period-selection step chooses the
last period (in stored order) whose start offset is at most the elapsed
seconds since schedule start — reduced modulo one day for
`Recurring`/`Daily` and one week for `Recurring`/`Weekly` — and
contributes no limit when no period qualifies; the Daily test profile
with periods (0 s, 11000) and (3600 s, 7400) evaluated at elapsed times
0, 3599, 3600, 86399, 86400 yields limits 11000, 11000, 7400, 7400,
11000. Proved for both module copies. -/
theorem c2_period_selection :
    (∀ (e : Int) (l : List CP.Period),
      l.Pairwise (fun a b => a.startPeriod < b.startPeriod) →
      CP.selectPeriod e l =
        (l.filter (fun per => decide (per.startPeriod ≤ e))).getLast?) ∧
    (∀ (e : Int) (l : List CPH.Period),
      l.Pairwise (fun a b => a.startPeriod < b.startPeriod) →
      CPH.selectPeriod e l =
        (l.filter (fun per => decide (per.startPeriod ≤ e))).getLast?) ∧
    (∀ (e : Int) (l : List CPH.Period),
      (∀ per ∈ l, e < per.startPeriod) → CPH.selectPeriod e l = none) ∧
    (dailyProfileCPH.chargingProfileKind = some "Recurring" ∧
      dailyProfileCPH.recurrencyKind = some "Daily") ∧
    CPH.getCurrentPeriodLimit dailyProfileCPH 0 = some 11000 ∧
    CPH.getCurrentPeriodLimit dailyProfileCPH 3599 = some 11000 ∧
    CPH.getCurrentPeriodLimit dailyProfileCPH 3600 = some 7400 ∧
    CPH.getCurrentPeriodLimit dailyProfileCPH 86399 = some 7400 ∧
    CPH.getCurrentPeriodLimit dailyProfileCPH 86400 = some 11000 ∧
    CP.getApplicablePeriod dailyProfileCP 0 =
      some { startPeriod := 0, limit := 11000 } ∧
    CP.getApplicablePeriod dailyProfileCP 3599 =
      some { startPeriod := 0, limit := 11000 } ∧
    CP.getApplicablePeriod dailyProfileCP 3600 =
      some { startPeriod := 3600, limit := 7400 } ∧
    CP.getApplicablePeriod dailyProfileCP 86399 =
      some { startPeriod := 3600, limit := 7400 } ∧
    CP.getApplicablePeriod dailyProfileCP 86400 =
      some { startPeriod := 0, limit := 11000 } := by
  refine ⟨CP.cpSelectPeriod_eq_getLast, CPH.cphSelectPeriod_eq_getLast, ?_,
    ⟨rfl, rfl⟩, rfl, rfl, rfl, rfl, rfl, rfl, rfl, rfl, rfl, rfl⟩
  intro e l hl
  cases l with
  | nil => rfl
  | cons p ps =>
    have hp := hl p (by simp)
    simp [CPH.selectPeriod, not_le.mpr hp]

/-- Witness for `c2_period_selection`: the general characterizations
instantiated at a concrete sorted period list. -/
theorem c2_period_selection_witness :
    CP.selectPeriod 5 [{ startPeriod := 0, limit := 3 }, { startPeriod := 4, limit := 9 }] =
      ([{ startPeriod := 0, limit := 3 }, { startPeriod := 4, limit := 9 }].filter
        (fun per : CP.Period => decide (per.startPeriod ≤ 5))).getLast? ∧
    CPH.selectPeriod 2 [{ startPeriod := 7, limit := 3, numberPhases := none }] = none := by
  constructor
  · exact c2_period_selection.1 5 _ (by simp)
  · exact c2_period_selection.2.2.1 2 _ (by simp)

/-- C8: connection establishment tries exactly the three strategies
header-auth, URI-embedded auth, then no credentials, in that order,
stopping at the first success; a 401 `InvalidStatus` on any attempt ends
the whole connect cycle (the conclusions below hold for every behaviour
of the untried strategies); any other failure falls through to the next
strategy, and exhausting the list yields the all-failed outcome. -/
theorem c8_connect_strategy_order :
    Conn.connectionMethods =
      [Conn.Strategy.withHeaders, Conn.Strategy.withEmbeddedAuth,
       Conn.Strategy.basic] ∧
    (∀ a, a Conn.Strategy.withHeaders = Conn.AttemptResult.success →
      Conn.connect a = Conn.ConnectResult.connected Conn.Strategy.withHeaders) ∧
    (∀ a, a Conn.Strategy.withHeaders = Conn.AttemptResult.otherFailure →
      a Conn.Strategy.withEmbeddedAuth = Conn.AttemptResult.success →
      Conn.connect a = Conn.ConnectResult.connected Conn.Strategy.withEmbeddedAuth) ∧
    (∀ a c, a Conn.Strategy.withHeaders = Conn.AttemptResult.invalidStatus c →
      c ≠ 401 →
      a Conn.Strategy.withEmbeddedAuth = Conn.AttemptResult.success →
      Conn.connect a = Conn.ConnectResult.connected Conn.Strategy.withEmbeddedAuth) ∧
    (∀ a, a Conn.Strategy.withHeaders = Conn.AttemptResult.otherFailure →
      a Conn.Strategy.withEmbeddedAuth = Conn.AttemptResult.otherFailure →
      a Conn.Strategy.basic = Conn.AttemptResult.success →
      Conn.connect a = Conn.ConnectResult.connected Conn.Strategy.basic) ∧
    (∀ a, a Conn.Strategy.withHeaders = Conn.AttemptResult.invalidStatus 401 →
      Conn.connect a = Conn.ConnectResult.authFailed) ∧
    (∀ a, a Conn.Strategy.withHeaders = Conn.AttemptResult.otherFailure →
      a Conn.Strategy.withEmbeddedAuth = Conn.AttemptResult.invalidStatus 401 →
      Conn.connect a = Conn.ConnectResult.authFailed) ∧
    (∀ a, a Conn.Strategy.withHeaders = Conn.AttemptResult.otherFailure →
      a Conn.Strategy.withEmbeddedAuth = Conn.AttemptResult.otherFailure →
      a Conn.Strategy.basic = Conn.AttemptResult.invalidStatus 401 →
      Conn.connect a = Conn.ConnectResult.authFailed) ∧
    (∀ a c1 c2 c3,
      (a Conn.Strategy.withHeaders = Conn.AttemptResult.otherFailure ∨
        (a Conn.Strategy.withHeaders = Conn.AttemptResult.invalidStatus c1 ∧ c1 ≠ 401)) →
      (a Conn.Strategy.withEmbeddedAuth = Conn.AttemptResult.otherFailure ∨
        (a Conn.Strategy.withEmbeddedAuth = Conn.AttemptResult.invalidStatus c2 ∧ c2 ≠ 401)) →
      (a Conn.Strategy.basic = Conn.AttemptResult.otherFailure ∨
        (a Conn.Strategy.basic = Conn.AttemptResult.invalidStatus c3 ∧ c3 ≠ 401)) →
      Conn.connect a = Conn.ConnectResult.allFailed) := by
  refine ⟨rfl, ?_, ?_, ?_, ?_, ?_, ?_, ?_, ?_⟩
  · intro a h1
    simp [Conn.connect, Conn.connectionMethods, Conn.connectLoop, h1]
  · intro a h1 h2
    simp [Conn.connect, Conn.connectionMethods, Conn.connectLoop, h1, h2]
  · intro a c h1 hc h2
    simp [Conn.connect, Conn.connectionMethods, Conn.connectLoop, h1, hc, h2]
  · intro a h1 h2 h3
    simp [Conn.connect, Conn.connectionMethods, Conn.connectLoop, h1, h2, h3]
  · intro a h1
    simp [Conn.connect, Conn.connectionMethods, Conn.connectLoop, h1]
  · intro a h1 h2
    simp [Conn.connect, Conn.connectionMethods, Conn.connectLoop, h1, h2]
  · intro a h1 h2 h3
    simp [Conn.connect, Conn.connectionMethods, Conn.connectLoop, h1, h2, h3]
  · intro a c1 c2 c3 h1 h2 h3
    rcases h1 with h1 | ⟨h1, hc1⟩ <;> rcases h2 with h2 | ⟨h2, hc2⟩ <;>
      rcases h3 with h3 | ⟨h3, hc3⟩ <;>
      simp [Conn.connect, Conn.connectionMethods, Conn.connectLoop,
        h1, h2, h3, *]

/-- Witness for `c8_connect_strategy_order`: a concrete attempt function
that fails with a 404 on the header strategy and succeeds on the
URI-embedded strategy connects via the URI-embedded strategy. -/
theorem c8_connect_strategy_order_witness :
    Conn.connect (fun s =>
      match s with
      | Conn.Strategy.withHeaders => Conn.AttemptResult.invalidStatus 404
      | Conn.Strategy.withEmbeddedAuth => Conn.AttemptResult.success
      | Conn.Strategy.basic => Conn.AttemptResult.otherFailure) =
      Conn.ConnectResult.connected Conn.Strategy.withEmbeddedAuth := by
  exact c8_connect_strategy_order.2.2.2.1 _ 404 rfl (by decide) rfl

/-- C1 (amended): in `charging_profile_handler.py`, the effective-limit
computation for a physical connector gathers the connector's own active
profiles plus the active profiles stored under connector 0; an active
`ChargePointMaxProfile` on connector 0 determines the result when the
connector has no active profile of its own, and is overridden by an
active connector-local profile with a higher stack level. -/
theorem c1_connector0_profiles_apply :
    (∀ (store : Int → List CPH.Profile) (c now : Int)
      (txs : List (Int × Option Int)), 0 < c →
      CPH.gatherActiveProfiles store c now txs =
        (store c).filter (fun r => CPH.isProfileActive r now txs) ++
        (store 0).filter (fun r => CPH.isProfileActive r now txs)) ∧
    (∀ (store : Int → List CPH.Profile) (c now : Int)
      (txs : List (Int × Option Int)), 0 < c →
      (store c).filter (fun r => CPH.isProfileActive r now txs) = [] →
      CPH.calculateEffectiveLimits store c now txs =
        CPH.calculateEffectiveLimits store 0 now txs) ∧
    (∀ (store : Int → List CPH.Profile) (c now : Int)
      (txs : List (Int × Option Int)) (p : CPH.Profile) (lp : ℚ), 0 < c →
      (store c).filter (fun r => CPH.isProfileActive r now txs) = [] →
      (store 0).filter (fun r => CPH.isProfileActive r now txs) = [p] →
      CPH.getCurrentPeriodLimit p now = some lp →
      CPH.calculateEffectiveLimits store c now txs = CPH.limitsOfProfile p lp) ∧
    (∀ (store : Int → List CPH.Profile) (c now : Int)
      (txs : List (Int × Option Int)) (p q : CPH.Profile) (lq : ℚ), 0 < c →
      (store c).filter (fun r => CPH.isProfileActive r now txs) = [q] →
      (store 0).filter (fun r => CPH.isProfileActive r now txs) = [p] →
      p.stackLevel < q.stackLevel →
      CPH.getCurrentPeriodLimit q now = some lq →
      CPH.calculateEffectiveLimits store c now txs = CPH.limitsOfProfile q lq) := by
  refine ⟨?_, ?_, ?_, ?_⟩
  · intro store c now txs hc
    simp [CPH.gatherActiveProfiles, hc]
  · intro store c now txs hc hempty
    simp [CPH.calculateEffectiveLimits, CPH.gatherActiveProfiles, hc, hempty]
  · intro store c now txs p lp hc hempty h0 hlim
    simp [CPH.calculateEffectiveLimits, CPH.gatherActiveProfiles, hc, hempty,
      h0, CPH.sortByStackDesc, List.insertionSort, List.orderedInsert,
      CPH.firstWithLimit, hlim]
  · intro store c now txs p q lq hc hown h0 hstack hlim
    have hq : CPH.stackGE q p := le_of_lt hstack
    simp [CPH.calculateEffectiveLimits, CPH.gatherActiveProfiles, hc, hown,
      h0, CPH.sortByStackDesc, List.insertionSort, List.orderedInsert,
      if_pos hq, CPH.firstWithLimit, hlim]

/-- Witness for `c1_connector0_profiles_apply`: a connector-0
`ChargePointMaxProfile` alone determines connector 3's limits, and a
connector-3 profile of higher stack level overrides it. -/
theorem c1_connector0_profiles_apply_witness :
    CPH.calculateEffectiveLimits cpMaxOnlyStoreCPH 3 1000 [] =
      CPH.limitsOfProfile cpMaxOnConnector0CPH 5000 ∧
    CPH.calculateEffectiveLimits overrideStoreCPH 3 1000 [] =
      CPH.limitsOfProfile conn3ProfileCPH 3000 := by
  constructor
  · exact c1_connector0_profiles_apply.2.2.1 cpMaxOnlyStoreCPH 3 1000 []
      cpMaxOnConnector0CPH 5000 (by decide) rfl rfl rfl
  · exact c1_connector0_profiles_apply.2.2.2 overrideStoreCPH 3 1000 []
      cpMaxOnConnector0CPH conn3ProfileCPH 3000 (by decide) rfl rfl
      (by decide) rfl

/-- C1 counterexample: in `charging_profiles.py` (the module wired into
`ev_charger_simulator.py`), `_update_current_limits` reads only the
connector's own stored list, so an always-active `ChargePointMaxProfile`
stored under connector 0 with a qualifying 5000 W period leaves
connector 3's computed limits empty — against the claim, which requires
it to determine `getEffectiveLimit(3)`. -/
theorem c1_counterexample :
    cpMaxOnConnector0.chargingProfilePurpose = "ChargePointMaxProfile" ∧
    CP.getActiveProfiles (cpMaxStore 0) 1000 = [cpMaxOnConnector0] ∧
    CP.getApplicablePeriod cpMaxOnConnector0 1000 =
      some { startPeriod := 0, limit := 5000 } ∧
    cpMaxStore 3 = [] ∧
    CP.updateCurrentLimitsFor cpMaxStore 0 1000 11000 48
      { power := none, current := none } =
      { power := some 5000, current := some (5000 / 230) } ∧
    CP.updateCurrentLimitsFor cpMaxStore 3 1000 11000 48
      { power := none, current := none } =
      { power := none, current := none } :=
  ⟨rfl, rfl, rfl, rfl, rfl, rfl⟩


theorem pyTruthy_eq_true_iff (o : Option Int) :
    pyTruthy o = true ↔ ∃ t, o = some t ∧ t ≠ 0 := by
  cases o <;> simp [pyTruthy]

theorem optionAnyLt_iff (o : Option Int) (now : Int) :
    Option.any (fun v => decide (now < v)) o = true ↔
      ∃ v, o = some v ∧ now < v := by
  cases o <;> simp [Option.any]

theorem optionAnyGt_iff (o : Option Int) (now : Int) :
    Option.any (fun v => decide (v < now)) o = true ↔
      ∃ v, o = some v ∧ v < now := by
  cases o <;> simp [Option.any]

/-- C3 (amended): in `charging_profile_handler.py`, a profile is
discarded by the effective-limit computation exactly when it is
inactive — `now` before `validFrom`, `now` after `validTo`, or purpose
`TxProfile` with a bound (truthy) `transactionId` active on no
connector — and removing an inactive profile from any connector's stored
list never changes any computed effective limit (in particular a profile
with `validTo` in the past is excluded however high its stack level); in
`charging_profiles.py` only the validity-window part of the filter
exists, and an expired profile is likewise excluded there. -/
theorem c3_inactive_profiles_discarded :
    (∀ (p : CPH.Profile) (now : Int) (txs : List (Int × Option Int)),
      CPH.isProfileActive p now txs = false ↔
        (∃ vf, p.validFrom = some vf ∧ now < vf) ∨
        (∃ vt, p.validTo = some vt ∧ vt < now) ∨
        (p.chargingProfilePurpose = some "TxProfile" ∧
          (∃ t, p.transactionId = some t ∧ t ≠ 0) ∧
          ∀ kv ∈ txs, kv.2 ≠ p.transactionId)) ∧
    (∀ (store store2 : Int → List CPH.Profile) (c now : Int)
      (txs : List (Int × Option Int)) (p : CPH.Profile)
      (l1 l2 : List CPH.Profile),
      store c = l1 ++ p :: l2 →
      store2 c = l1 ++ l2 →
      (∀ k, k ≠ c → store2 k = store k) →
      CPH.isProfileActive p now txs = false →
      ∀ d, CPH.calculateEffectiveLimits store2 d now txs =
        CPH.calculateEffectiveLimits store d now txs) ∧
    (∀ (p : CP.ChargingProfile) (now vt : Int), p.validTo = some vt →
      vt < now →
      ∀ (l1 l2 : List CP.ChargingProfile) (maxPower maxCurrent : ℚ)
        (prev : CP.Limits),
        CP.updateCurrentLimits (l1 ++ p :: l2) now maxPower maxCurrent prev =
        CP.updateCurrentLimits (l1 ++ l2) now maxPower maxCurrent prev) := by
  refine ⟨?_, ?_, ?_⟩
  · intro p now txs
    unfold CPH.isProfileActive
    split_ifs with h1 h2 h3
    · exact iff_of_true rfl (Or.inl ((optionAnyLt_iff _ _).mp h1))
    · exact iff_of_true rfl (Or.inr (Or.inl ((optionAnyGt_iff _ _).mp h2)))
    · rw [Bool.and_eq_true, beq_iff_eq] at h3
      obtain ⟨h3a, h3b⟩ := h3
      rw [List.any_eq_false]
      constructor
      · intro hall
        exact Or.inr (Or.inr ⟨h3a, (pyTruthy_eq_true_iff _).mp h3b,
          fun kv hkv => by simpa using hall kv hkv⟩)
      · rintro (⟨vf, hvf, hlt⟩ | ⟨vt, hvt, hlt⟩ | ⟨_, _, hall⟩)
        · exact absurd ((optionAnyLt_iff _ _).mpr ⟨vf, hvf, hlt⟩) h1
        · exact absurd ((optionAnyGt_iff _ _).mpr ⟨vt, hvt, hlt⟩) h2
        · intro kv hkv
          simpa using hall kv hkv
    · refine iff_of_false (by simp) ?_
      rintro (⟨vf, hvf, hlt⟩ | ⟨vt, hvt, hlt⟩ | ⟨hpur, ⟨t, htx, ht0⟩, _⟩)
      · exact h1 ((optionAnyLt_iff _ _).mpr ⟨vf, hvf, hlt⟩)
      · exact h2 ((optionAnyGt_iff _ _).mpr ⟨vt, hvt, hlt⟩)
      · refine h3 ?_
        rw [Bool.and_eq_true, beq_iff_eq]
        exact ⟨hpur, (pyTruthy_eq_true_iff _).mpr ⟨t, htx, ht0⟩⟩
  · intro store store2 c now txs p l1 l2 hsc hs2c hother hinact d
    have hfil : ∀ (a b : List CPH.Profile),
        (a ++ p :: b).filter (fun r => CPH.isProfileActive r now txs) =
        (a ++ b).filter (fun r => CPH.isProfileActive r now txs) := by
      intro a b
      simp [List.filter_append, List.filter_cons, hinact]
    have hconn : ∀ k, (store2 k).filter (fun r => CPH.isProfileActive r now txs)
        = (store k).filter (fun r => CPH.isProfileActive r now txs) := by
      intro k
      by_cases hk : k = c
      · rw [hk, hs2c, hsc, hfil]
      · rw [hother k hk]
    unfold CPH.calculateEffectiveLimits CPH.gatherActiveProfiles
    rw [hconn d, hconn 0]
  · intro p now vt hvt hlt l1 l2 maxPower maxCurrent prev
    have hdec : decide (now ≤ vt) = false := decide_eq_false (by omega)
    have hfalse : CP.profilePassesValidity p now = false := by
      unfold CP.profilePassesValidity
      rw [hvt]
      simp only [hdec, Bool.and_false]
    simp [CP.updateCurrentLimits, CP.getActiveProfiles, List.filter_append,
      List.filter_cons, hfalse]

/-- Witness for `c3_inactive_profiles_discarded`: an expired profile
(validTo 100, evaluated at time 1000) is inactive in the handler module;
removing it from connector 0 of a one-profile store leaves every
computed limit unchanged; and the `charging_profiles.py` computation
likewise ignores it. -/
theorem c3_inactive_profiles_discarded_witness :
    (CPH.isProfileActive
      { cpMaxOnConnector0CPH with validTo := some 100 } 1000 [] = false) ∧
    CPH.calculateEffectiveLimits (fun _ => []) 3 1000 [] =
      CPH.calculateEffectiveLimits (fun c =>
        if c = 0 then [{ cpMaxOnConnector0CPH with validTo := some 100 }]
        else []) 3 1000 [] ∧
    CP.updateCurrentLimits
      ([] ++ { cpMaxOnConnector0 with validTo := some 100 } :: [])
      1000 11000 48 { power := none, current := none } =
    CP.updateCurrentLimits ([] ++ []) 1000 11000 48
      { power := none, current := none } := by
  refine ⟨?_, ?_, ?_⟩
  · exact (c3_inactive_profiles_discarded.1 _ 1000 []).mpr
      (Or.inr (Or.inl ⟨100, rfl, by omega⟩))
  · exact c3_inactive_profiles_discarded.2.1
      (fun c => if c = 0 then [{ cpMaxOnConnector0CPH with validTo := some 100 }] else [])
      (fun _ => []) 0 1000 []
      { cpMaxOnConnector0CPH with validTo := some 100 } [] [] rfl rfl
      (fun k hk => by simp [hk]) (by decide) 3
  · exact c3_inactive_profiles_discarded.2.2
      { cpMaxOnConnector0 with validTo := some 100 } 1000 100 rfl
      (by omega) [] [] 11000 48 { power := none, current := none }

/-- C3 counterexample: in `charging_profiles.py` (wired into
`ev_charger_simulator.py`), `_get_active_profiles` consults no
transaction registry at all, so a `TxProfile` bound to transaction 99 —
active on no connector, since the module never checks — is kept and
determines the connector's limits, against the claim's `TxProfile`
clause. -/
theorem c3_counterexample :
    txProfile99.chargingProfilePurpose = "TxProfile" ∧
    txProfile99.transactionId = some 99 ∧
    CP.getActiveProfiles [txProfile99] 1000 = [txProfile99] ∧
    CP.updateCurrentLimits [txProfile99] 1000 11000 48
      { power := none, current := none } =
      { power := some 4000, current := some (4000 / 230) } :=
  ⟨rfl, rfl, rfl, rfl⟩

/-- C6 (amended): in `charging_profile_handler.py` the schedule start
used by the effective-limit evaluation is the profile's acceptance time
(`createdAt`) when the kind is `Relative` and no explicit start
timestamp is given, the evaluation time otherwise, and an explicit
start timestamp always takes precedence — i.e. it agrees with the
spec-worded rule `claimedScheduleStart`; in `charging_profiles.py` a
`Relative` profile instead falls back to the evaluation time (no
acceptance time is recorded there). -/
theorem c6_schedule_start :
    (∀ (p : CPH.Profile) (now ts : Int),
      p.chargingSchedule.startSchedule = some ts →
      CPH.scheduleStart p now = ts) ∧
    (∀ (p : CPH.Profile) (now : Int),
      p.chargingSchedule.startSchedule = none →
      p.chargingProfileKind = some "Relative" →
      CPH.scheduleStart p now = p.createdAt) ∧
    (∀ (p : CPH.Profile) (now : Int),
      p.chargingSchedule.startSchedule = none →
      p.chargingProfileKind ≠ some "Relative" →
      CPH.scheduleStart p now = now) ∧
    (∀ (p : CPH.Profile) (now : Int),
      CPH.scheduleStart p now =
        claimedScheduleStart p.chargingSchedule.startSchedule
          (p.chargingProfileKind.getD "") p.createdAt now) := by
  refine ⟨?_, ?_, ?_, ?_⟩
  · intro p now ts hts
    simp [CPH.scheduleStart, hts]
  · intro p now hnone hrel
    simp [CPH.scheduleStart, hnone, hrel]
  · intro p now hnone hrel
    simp [CPH.scheduleStart, hnone, hrel]
  · intro p now
    unfold CPH.scheduleStart claimedScheduleStart
    cases hts : p.chargingSchedule.startSchedule with
    | some ts => rfl
    | none =>
      cases hk : p.chargingProfileKind with
      | none => simp
      | some k =>
        by_cases hrel : k = "Relative" <;> simp [hrel]

/-- Witness for `c6_schedule_start`: a Relative profile without an
explicit start timestamp starts at its acceptance time in the handler
module. -/
theorem c6_schedule_start_witness :
    CPH.scheduleStart
      { dailyProfileCPH with
        chargingProfileKind := some "Relative",
        chargingSchedule :=
          { dailyProfileCPH.chargingSchedule with startSchedule := none },
        createdAt := 555 } 7200 = 555 := by
  exact c6_schedule_start.2.1 _ 7200 rfl rfl

/-- C6 counterexample: in `charging_profiles.py` (wired into
`ev_charger_simulator.py`), a `Relative` profile without an explicit
start timestamp is evaluated with schedule start equal to the evaluation
time itself, not the acceptance time: for a profile accepted at time 0
with periods (0 s, 10) and (3600 s, 20), at evaluation time 7200 the
code picks the first period (limit 10), whereas the claimed
`createdAt`-based start would pick the second (limit 20). -/
theorem c6_counterexample :
    relProfileCP.chargingProfileKind = "Relative" ∧
    relProfileCP.startSchedule = none ∧
    CP.scheduleStart relProfileCP 7200 = 7200 ∧
    claimedScheduleStart relProfileCP.startSchedule
      relProfileCP.chargingProfileKind 0 7200 = 0 ∧
    CP.getApplicablePeriod relProfileCP 7200 =
      some { startPeriod := 0, limit := 10 } ∧
    CP.selectPeriod (7200 - claimedScheduleStart relProfileCP.startSchedule
      relProfileCP.chargingProfileKind 0 7200)
      relProfileCP.chargingSchedulePeriods =
      some { startPeriod := 3600, limit := 20 } :=
  ⟨rfl, rfl, rfl, rfl, rfl, rfl⟩

theorem CP.conflictsWith_eq_false_iff (q p : CP.ChargingProfile) :
    CP.conflictsWith q p = false ↔
      q.chargingProfileId ≠ p.chargingProfileId ∧
      ¬(q.stackLevel = p.stackLevel ∧
        q.chargingProfilePurpose = p.chargingProfilePurpose) := by
  simp [CP.conflictsWith]

theorem CP.insertProfile_noConflicts (l : List CP.ChargingProfile)
    (p : CP.ChargingProfile) (h : CP.noConflicts l) :
    CP.noConflicts (CP.insertProfile l p) := by
  unfold CP.insertProfile CP.sortByStackDesc
  unfold CP.noConflicts at *
  have hsymm : Symmetric (fun a b : CP.ChargingProfile =>
      a.chargingProfileId ≠ b.chargingProfileId ∧
      ¬(a.stackLevel = b.stackLevel ∧
        a.chargingProfilePurpose = b.chargingProfilePurpose)) := by
    intro a b hab
    exact ⟨hab.1.symm, fun hx => hab.2 ⟨hx.1.symm, hx.2.symm⟩⟩
  refine ((List.perm_insertionSort _ _).pairwise_iff
    (fun hab => hsymm hab)).mpr ?_
  rw [List.pairwise_append]
  refine ⟨h.sublist (List.filter_sublist l), List.pairwise_singleton _ _, ?_⟩
  intro a ha b hb
  rw [List.mem_singleton] at hb
  subst hb
  rw [CP.removeConflictingProfiles, List.mem_filter] at ha
  have hfalse : CP.conflictsWith a b = false := by
    have := ha.2
    simpa using this
  exact (CP.conflictsWith_eq_false_iff a b).mp hfalse

theorem CP.insertProfile_replaces (p1 p2 : CP.ChargingProfile)
    (hs : p1.stackLevel = p2.stackLevel)
    (hp : p1.chargingProfilePurpose = p2.chargingProfilePurpose) :
    CP.insertProfile [p1] p2 = [p2] := by
  have hc : CP.conflictsWith p1 p2 = true := by
    simp [CP.conflictsWith, hs, hp]
  unfold CP.insertProfile CP.removeConflictingProfiles
  simp [List.filter_cons, hc, CP.sortByStackDesc, List.insertionSort,
    List.orderedInsert]

theorem CP.lookup_storeSet (s : CP.Store) (c : Int)
    (v : List CP.ChargingProfile) (k : Int) :
    (CP.storeSet s c v).lookup k =
      if k = c then (s.lookup c).map (fun _ => v) else s.lookup k := by
  induction s with
  | nil => by_cases hk : k = c <;> simp [CP.storeSet, hk]
  | cons a t ih =>
    obtain ⟨ak, av⟩ := a
    simp only [CP.storeSet, List.map_cons] at ih ⊢
    have hhead : (if ((ak, av) : Int × List CP.ChargingProfile).1 = c
        then (c, v) else (ak, av)) = if ak = c then (c, v) else (ak, av) := rfl
    rw [hhead]
    by_cases hac : ak = c
    · rw [if_pos hac]
      by_cases hk : k = c
      · subst hk
        simp [List.lookup, hac]
      · rw [if_neg hk]
        simp only [List.lookup, beq_iff_eq, hk, if_false]
        rw [ih, if_neg hk]
        have hkak : k ≠ ak := fun h => hk (h.trans hac)
        simp only [show (k == c) = false from by simp [hk],
          show (k == ak) = false from by simp [hkak]]
    · rw [if_neg hac]
      by_cases hk : k = ak
      · subst hk
        have hkc : k ≠ c := fun h => hac h
        simp [List.lookup, hkc]
      · simp only [List.lookup, beq_iff_eq, hk, if_false]
        rw [ih]
        by_cases hkc : k = c
        · rw [if_pos hkc, if_pos hkc]
          have hcak : c ≠ ak := fun h => hk (hkc.trans h)
          simp only [show (k == ak) = false from by simp [hk],
            show (c == ak) = false from by simp [hcak]]
        · rw [if_neg hkc, if_neg hkc]

theorem CP.storeLookup_ok_iff (s : CP.Store) (k : Int)
    (v : List CP.ChargingProfile) :
    CP.storeLookup s k = Except.ok v ↔ s.lookup k = some v := by
  unfold CP.storeLookup
  cases s.lookup k <;> simp

/-- C4: the per-connector profile store never holds two profiles with
the same id nor two with the same (stackLevel, purpose) pair: the
insertion pipeline of an accepted `setProfile` first evicts every
conflicting profile, so the uniqueness invariant is preserved across
`handle_set_charging_profile` for every connector, a second profile with
an existing (stackLevel, purpose) pair replaces the first, and the
recomputed effective limit reflects only the new one. -/
theorem c4_store_uniqueness :
    (∀ (l : List CP.ChargingProfile) (p : CP.ChargingProfile),
      CP.noConflicts l → CP.noConflicts (CP.insertProfile l p)) ∧
    (∀ (l : List CP.ChargingProfile) (p q : CP.ChargingProfile),
      CP.conflictsWith q p = true →
      q ∉ CP.removeConflictingProfiles l p) ∧
    (∀ (cfg : CP.Config) (st : CP.ManagerState) (c : Int)
      (p : CP.ChargingProfile) (now : Int),
      (∀ k l, st.chargingProfiles.lookup k = some l → CP.noConflicts l) →
      ∀ k l, (CP.handleSetChargingProfile cfg st c p now).2.chargingProfiles.lookup k
        = some l → CP.noConflicts l) ∧
    (∀ (p1 p2 : CP.ChargingProfile),
      p1.stackLevel = p2.stackLevel →
      p1.chargingProfilePurpose = p2.chargingProfilePurpose →
      CP.insertProfile [p1] p2 = [p2]) ∧
    (∀ (p1 p2 : CP.ChargingProfile) (now : Int) (maxPower maxCurrent : ℚ)
      (prev : CP.Limits),
      p1.stackLevel = p2.stackLevel →
      p1.chargingProfilePurpose = p2.chargingProfilePurpose →
      CP.updateCurrentLimits (CP.insertProfile [p1] p2) now maxPower
        maxCurrent prev =
      CP.updateCurrentLimits [p2] now maxPower maxCurrent prev) := by
  refine ⟨CP.insertProfile_noConflicts, ?_, ?_, CP.insertProfile_replaces, ?_⟩
  · intro l p q hq hmem
    rw [CP.removeConflictingProfiles, List.mem_filter] at hmem
    rw [hq] at hmem
    simp at hmem
  · intro cfg st c p now hinv k l hlk
    unfold CP.handleSetChargingProfile at hlk
    split_ifs at hlk with h1 h2 h3 h4 h5
    · exact hinv k l hlk
    · exact hinv k l hlk
    · exact hinv k l hlk
    · exact hinv k l hlk
    · exact hinv k l hlk
    · cases hacc : CP.storeLookup st.chargingProfiles c with
      | error e =>
        rw [CP.acceptProfile, hacc] at hlk
        simp only [Bind.bind, Except.bind] at hlk
        exact hinv k l hlk
      | ok profiles =>
        rw [CP.acceptProfile, hacc] at hlk
        simp only [Bind.bind, Except.bind] at hlk
        rw [CP.lookup_storeSet] at hlk
        by_cases hk : k = c
        · rw [if_pos hk] at hlk
          have hsome : st.chargingProfiles.lookup c = some profiles :=
            (CP.storeLookup_ok_iff _ _ _).mp hacc
          rw [hsome] at hlk
          obtain rfl : CP.insertProfile profiles p = l := by
            simpa using hlk
          exact CP.insertProfile_noConflicts _ _ (hinv c profiles hsome)
        · rw [if_neg hk] at hlk
          exact hinv k l hlk
  · intro p1 p2 now maxPower maxCurrent prev hs hp
    rw [CP.insertProfile_replaces p1 p2 hs hp]

/-- Witness for `c4_store_uniqueness`: concrete instantiations — insert
into an empty list, self-conflict eviction, an accepted `setProfile` on
a fresh store yielding a conflict-free connector list, and replacement
of a profile by a same-(stackLevel, purpose) successor. -/
theorem c4_store_uniqueness_witness :
    CP.noConflicts (CP.insertProfile [] cpMaxOnConnector0) ∧
    txProfile99 ∉ CP.removeConflictingProfiles [txProfile99] txProfile99 ∧
    CP.noConflicts [cpMaxOnConnector0] ∧
    CP.insertProfile [cpMaxOnConnector0]
      { cpMaxOnConnector0 with chargingProfileId := some 8 } =
      [{ cpMaxOnConnector0 with chargingProfileId := some 8 }] ∧
    CP.updateCurrentLimits (CP.insertProfile [cpMaxOnConnector0]
      { cpMaxOnConnector0 with chargingProfileId := some 8 }) 1000 11000 48
      { power := none, current := none } =
    CP.updateCurrentLimits
      [{ cpMaxOnConnector0 with chargingProfileId := some 8 }]
      1000 11000 48 { power := none, current := none } := by
  refine ⟨c4_store_uniqueness.1 [] cpMaxOnConnector0 List.Pairwise.nil,
    c4_store_uniqueness.2.1 [txProfile99] txProfile99 txProfile99 rfl,
    ?_, c4_store_uniqueness.2.2.2.1 _ _ rfl rfl,
    c4_store_uniqueness.2.2.2.2 _ _ 1000 11000 48
      { power := none, current := none } rfl rfl⟩
  exact c4_store_uniqueness.2.2.1
    { numberOfConnectors := 0, allowedUnitsList := ["Current", "Power"],
      maxStackLevel := 10, maxPeriods := 6, maxPower := 11000,
      maxCurrent := 48, connectorTransactions := [] }
    { chargingProfiles := [(0, [])],
      currentLimits := [(0, { power := none, current := none })] }
    0 cpMaxOnConnector0 1000
    (by
      intro k l h
      by_cases hk : k = 0
      · subst hk
        simp [List.lookup] at h
        rw [h]
        exact List.Pairwise.nil
      · simp only [List.lookup,
          show (k == (0 : Int)) = false from by simp [hk]] at h
        cases h)
    0 [cpMaxOnConnector0] (by rfl)

/-- C5: when `setProfile` returns `Rejected` or `NotSupported` the
manager state (profile store and cached effective limits) is unchanged —
every validation failure is decided before any mutation; a profile whose
rate unit is not in the configured allowed-units set yields
`NotSupported`, and a profile whose period limit exceeds the configured
charger maximum yields `Rejected`. -/
theorem CP.handleSet_status_or_unchanged (cfg : CP.Config)
    (st : CP.ManagerState) (c : Int) (p : CP.ChargingProfile) (now : Int) :
    (CP.handleSetChargingProfile cfg st c p now).1 = "Accepted" ∨
    (CP.handleSetChargingProfile cfg st c p now).2 = st := by
  unfold CP.handleSetChargingProfile
  split_ifs
  · exact Or.inr rfl
  · exact Or.inr rfl
  · exact Or.inr rfl
  · exact Or.inr rfl
  · exact Or.inr rfl
  · unfold CP.acceptProfile
    cases hacc : CP.storeLookup st.chargingProfiles c with
    | error e =>
      simp only [Bind.bind, Except.bind]
      exact Or.inr trivial
    | ok profiles =>
      simp only [Bind.bind, Except.bind]
      exact Or.inl trivial

theorem c5_rejection_no_mutation :
    (∀ (cfg : CP.Config) (st : CP.ManagerState) (c : Int)
      (p : CP.ChargingProfile) (now : Int),
      (CP.handleSetChargingProfile cfg st c p now).1 ≠ "Accepted" →
      (CP.handleSetChargingProfile cfg st c p now).2 = st) ∧
    (∀ (cfg : CP.Config) (st : CP.ManagerState) (c : Int)
      (p : CP.ChargingProfile) (now : Int),
      ¬(c < 0 ∨ c > cfg.numberOfConnectors) →
      CP.validateChargingProfile cfg.maxStackLevel cfg.maxPeriods
        cfg.connectorTransactions p c = true →
      ((p.chargingRateUnit = "W" ∧ "Power" ∉ cfg.allowedUnitsList) ∨
       (p.chargingRateUnit = "A" ∧ "Current" ∉ cfg.allowedUnitsList)) →
      CP.handleSetChargingProfile cfg st c p now = ("NotSupported", st)) ∧
    (∀ (cfg : CP.Config) (st : CP.ManagerState) (c : Int)
      (p : CP.ChargingProfile) (now : Int),
      ¬(c < 0 ∨ c > cfg.numberOfConnectors) →
      CP.validateChargingProfile cfg.maxStackLevel cfg.maxPeriods
        cfg.connectorTransactions p c = true →
      ¬(p.chargingRateUnit = "W" ∧ "Power" ∉ cfg.allowedUnitsList) →
      ¬(p.chargingRateUnit = "A" ∧ "Current" ∉ cfg.allowedUnitsList) →
      CP.validatePowerLimits cfg.maxPower cfg.maxCurrent p = false →
      CP.handleSetChargingProfile cfg st c p now = ("Rejected", st)) := by
  refine ⟨?_, ?_, ?_⟩
  · intro cfg st c p now h
    rcases CP.handleSet_status_or_unchanged cfg st c p now with ha | ha
    · exact absurd ha h
    · exact ha
  · intro cfg st c p now h1 hval hunits
    unfold CP.handleSetChargingProfile
    rw [if_neg h1, hval]
    simp only [Bool.not_true, Bool.false_eq_true, if_false]
    rcases hunits with ⟨hw, hnp⟩ | ⟨ha, hnc⟩
    · rw [if_pos ⟨hw, hnp⟩]
    · have hnw : ¬(p.chargingRateUnit = "W" ∧ "Power" ∉ cfg.allowedUnitsList) := by
        intro hand
        rw [ha] at hand
        exact absurd hand.1 (by decide)
      rw [if_neg hnw, if_pos ⟨ha, hnc⟩]
  · intro cfg st c p now h1 hval h3 h4 hpl
    unfold CP.handleSetChargingProfile
    rw [if_neg h1, hval]
    simp only [Bool.not_true, Bool.false_eq_true, if_false]
    rw [if_neg h3, if_neg h4, hpl]
    simp

/-- Witness for `c5_rejection_no_mutation`: a Watts profile is
`NotSupported` when only Current is allowed, `Rejected` when its 5000 W
period exceeds a 100 W charger maximum, and in both cases the state is
returned unchanged. -/
theorem c5_rejection_no_mutation_witness :
    CP.handleSetChargingProfile
      { numberOfConnectors := 0, allowedUnitsList := ["Current"],
        maxStackLevel := 10, maxPeriods := 6, maxPower := 11000,
        maxCurrent := 48, connectorTransactions := [] }
      (CP.initState 0) 0 cpMaxOnConnector0 1000 =
      ("NotSupported", CP.initState 0) ∧
    CP.handleSetChargingProfile
      { numberOfConnectors := 0, allowedUnitsList := ["Current", "Power"],
        maxStackLevel := 10, maxPeriods := 6, maxPower := 100,
        maxCurrent := 48, connectorTransactions := [] }
      (CP.initState 0) 0 cpMaxOnConnector0 1000 =
      ("Rejected", CP.initState 0) ∧
    (CP.handleSetChargingProfile
      { numberOfConnectors := 0, allowedUnitsList := ["Current", "Power"],
        maxStackLevel := 10, maxPeriods := 6, maxPower := 100,
        maxCurrent := 48, connectorTransactions := [] }
      (CP.initState 0) 0 cpMaxOnConnector0 1000).2 = CP.initState 0 := by
  refine ⟨?_, ?_, ?_⟩
  · exact c5_rejection_no_mutation.2.1 _ _ 0 cpMaxOnConnector0 1000
      (by decide) rfl (Or.inl ⟨rfl, by decide⟩)
  · exact c5_rejection_no_mutation.2.2 _ _ 0 cpMaxOnConnector0 1000
      (by decide) rfl (by decide) (by decide) (by decide)
  · exact c5_rejection_no_mutation.1 _ _ 0 cpMaxOnConnector0 1000 (by decide)

theorem lookup_append_single_ne {α β : Type} [BEq α] [LawfulBEq α]
    (l : List (α × β)) (i id : α) (o : β) (h : i ≠ id) :
    (l ++ [(i, o)]).lookup id = l.lookup id := by
  induction l with
  | nil =>
    simp [List.lookup, show (id == i) = false from by simp [Ne.symm h]]
  | cons a t ih =>
    obtain ⟨ak, av⟩ := a
    by_cases hk : id = ak <;> simp [List.lookup, hk, ih]

theorem lookup_append_of_some {α β : Type} [BEq α] [LawfulBEq α]
    (l l2 : List (α × β)) (id : α) (o : β) (h : l.lookup id = some o) :
    (l ++ l2).lookup id = some o := by
  induction l with
  | nil => cases h
  | cons a t ih =>
    obtain ⟨ak, av⟩ := a
    by_cases hk : id = ak
    · subst hk
      simpa [List.lookup] using h
    · simp only [List.cons_append, List.lookup,
        show (id == ak) = false from by simp [hk]] at h ⊢
      exact ih h

theorem lookup_append_of_none {α β : Type} [BEq α] [LawfulBEq α]
    (l l2 : List (α × β)) (id : α) (h : l.lookup id = none) :
    (l ++ l2).lookup id = l2.lookup id := by
  induction l with
  | nil => rfl
  | cons a t ih =>
    obtain ⟨ak, av⟩ := a
    by_cases hk : id = ak
    · subst hk
      simp [List.lookup] at h
    · simp only [List.cons_append, List.lookup,
        show (id == ak) = false from by simp [hk]] at h ⊢
      exact ih h

theorem Corr.count_step_ne (s : Corr.State) (e : Corr.Event) (id : String)
    (h : e.targetId ≠ id) :
    (Corr.step s e).pending.count id = s.pending.count id := by
  cases e with
  | send i =>
    simp only [Corr.Event.targetId] at h
    simp [Corr.step, List.count_append, List.count_singleton,
      show (id == i) = false from by simp [Ne.symm h], h]
  | callResult i =>
    simp only [Corr.Event.targetId] at h
    by_cases hm : i ∈ s.pending <;> simp [Corr.step, hm]
    exact List.count_erase_of_ne (Ne.symm h) _
  | callError i =>
    simp only [Corr.Event.targetId] at h
    by_cases hm : i ∈ s.pending <;> simp [Corr.step, hm]
    exact List.count_erase_of_ne (Ne.symm h) _
  | timeoutFires i =>
    simp only [Corr.Event.targetId] at h
    by_cases hm : i ∈ s.pending <;> simp [Corr.step, hm]
    exact List.count_erase_of_ne (Ne.symm h) _

theorem Corr.count_run_ne (s : Corr.State) (evs : List Corr.Event)
    (id : String) (h : ∀ e ∈ evs, e.targetId ≠ id) :
    (Corr.run s evs).pending.count id = s.pending.count id := by
  induction evs generalizing s with
  | nil => rfl
  | cons e rest ih =>
    have hstep : Corr.run s (e :: rest) = Corr.run (Corr.step s e) rest := rfl
    rw [hstep, ih _ (fun x hx => h x (List.mem_cons_of_mem _ hx)),
      Corr.count_step_ne s e id (h e (List.mem_cons_self _ _))]

theorem Corr.lookup_resolved_step_ne (s : Corr.State) (e : Corr.Event)
    (id : String) (h : e.targetId ≠ id) :
    (Corr.step s e).resolved.lookup id = s.resolved.lookup id := by
  cases e with
  | send i => rfl
  | callResult i =>
    simp only [Corr.Event.targetId] at h
    by_cases hm : i ∈ s.pending <;> simp [Corr.step, hm]
    exact lookup_append_single_ne _ _ _ _ h
  | callError i =>
    simp only [Corr.Event.targetId] at h
    by_cases hm : i ∈ s.pending <;> simp [Corr.step, hm]
    exact lookup_append_single_ne _ _ _ _ h
  | timeoutFires i =>
    simp only [Corr.Event.targetId] at h
    by_cases hm : i ∈ s.pending <;> simp [Corr.step, hm]
    exact lookup_append_single_ne _ _ _ _ h

theorem Corr.lookup_resolved_run_ne (s : Corr.State) (evs : List Corr.Event)
    (id : String) (h : ∀ e ∈ evs, e.targetId ≠ id) :
    (Corr.run s evs).resolved.lookup id = s.resolved.lookup id := by
  induction evs generalizing s with
  | nil => rfl
  | cons e rest ih =>
    have hstep : Corr.run s (e :: rest) = Corr.run (Corr.step s e) rest := rfl
    rw [hstep, ih _ (fun x hx => h x (List.mem_cons_of_mem _ hx)),
      Corr.lookup_resolved_step_ne s e id (h e (List.mem_cons_self _ _))]

theorem Corr.lookup_resolved_step_mono (s : Corr.State) (e : Corr.Event)
    (id : String) (o : Corr.Outcome)
    (h : s.resolved.lookup id = some o) :
    (Corr.step s e).resolved.lookup id = some o := by
  cases e with
  | send i => exact h
  | callResult i =>
    by_cases hm : i ∈ s.pending <;> simp [Corr.step, hm]
    · exact lookup_append_of_some _ _ _ _ h
    · exact h
  | callError i =>
    by_cases hm : i ∈ s.pending <;> simp [Corr.step, hm]
    · exact lookup_append_of_some _ _ _ _ h
    · exact h
  | timeoutFires i =>
    by_cases hm : i ∈ s.pending <;> simp [Corr.step, hm]
    · exact lookup_append_of_some _ _ _ _ h
    · exact h

theorem Corr.step_timeout_mem (s : Corr.State) (id : String)
    (h : id ∈ s.pending) :
    Corr.step s (Corr.Event.timeoutFires id) =
      { pending := s.pending.erase id,
        resolved := s.resolved ++ [(id, Corr.Outcome.timeout)] } := by
  simp [Corr.step, h]

/-- C7: `call()` resolution discipline — the request timeout constant is
30 seconds; any resolution (matching result, matching error, or timeout)
removes the `PendingRequest` entry immediately; a result, error or
timeout for an id with no registered entry changes nothing (late and
duplicate responses are silently ignored, so only one outcome ever
resolves a given request — a recorded outcome persists over any further
events); and a call whose id is never answered by any event of the trace
ends, after its timeout fires, deregistered and resolved with the
timeout outcome. -/
theorem c7_call_timeout_single_resolution :
    Corr.callTimeoutSeconds = 30 ∧
    (∀ (s : Corr.State) (id : String), id ∈ s.pending →
      (Corr.step s (Corr.Event.callResult id)).pending = s.pending.erase id ∧
      (Corr.step s (Corr.Event.callError id)).pending = s.pending.erase id ∧
      (Corr.step s (Corr.Event.timeoutFires id)).pending = s.pending.erase id) ∧
    (∀ (s : Corr.State) (id : String), id ∉ s.pending →
      Corr.step s (Corr.Event.callResult id) = s ∧
      Corr.step s (Corr.Event.callError id) = s ∧
      Corr.step s (Corr.Event.timeoutFires id) = s) ∧
    (∀ (s : Corr.State) (evs : List Corr.Event) (id : String)
      (o : Corr.Outcome), s.resolved.lookup id = some o →
      (Corr.run s evs).resolved.lookup id = some o) ∧
    (∀ (s : Corr.State) (id : String) (evs : List Corr.Event),
      id ∉ s.pending → s.resolved.lookup id = none →
      (∀ e ∈ evs, e.targetId ≠ id) →
      id ∉ (Corr.step (Corr.run (Corr.step s (Corr.Event.send id)) evs)
        (Corr.Event.timeoutFires id)).pending ∧
      (Corr.step (Corr.run (Corr.step s (Corr.Event.send id)) evs)
        (Corr.Event.timeoutFires id)).resolved.lookup id =
        some Corr.Outcome.timeout) := by
  refine ⟨rfl, ?_, ?_, ?_, ?_⟩
  · intro s id hm
    exact ⟨by simp [Corr.step, hm], by simp [Corr.step, hm],
      by simp [Corr.step, hm]⟩
  · intro s id hm
    exact ⟨by simp [Corr.step, hm], by simp [Corr.step, hm],
      by simp [Corr.step, hm]⟩
  · intro s evs id o h
    induction evs generalizing s with
    | nil => exact h
    | cons e rest ih =>
      exact ih _ (Corr.lookup_resolved_step_mono s e id o h)
  · intro s id evs hp hr hevs
    have hc1 : (Corr.step s (Corr.Event.send id)).pending.count id = 1 := by
      simp [Corr.step, List.count_append, List.count_singleton,
        List.count_eq_zero.mpr hp]
    have hc2 : (Corr.run (Corr.step s (Corr.Event.send id)) evs).pending.count id
        = 1 := by
      rw [Corr.count_run_ne _ _ _ hevs, hc1]
    have hmem : id ∈ (Corr.run (Corr.step s (Corr.Event.send id)) evs).pending := by
      rw [← List.count_pos_iff]
      omega
    have hrn : (Corr.run (Corr.step s (Corr.Event.send id)) evs).resolved.lookup id
        = none := by
      rw [Corr.lookup_resolved_run_ne _ _ _ hevs]
      exact hr
    constructor
    · have herase : (Corr.step (Corr.run (Corr.step s (Corr.Event.send id)) evs)
          (Corr.Event.timeoutFires id)).pending =
          ((Corr.run (Corr.step s (Corr.Event.send id)) evs).pending).erase id := by
        rw [Corr.step_timeout_mem _ _ hmem]
      rw [← List.count_eq_zero, herase, List.count_erase_self, hc2]
    · have hres : (Corr.step (Corr.run (Corr.step s (Corr.Event.send id)) evs)
          (Corr.Event.timeoutFires id)).resolved =
          (Corr.run (Corr.step s (Corr.Event.send id)) evs).resolved ++
            [(id, Corr.Outcome.timeout)] := by
        rw [Corr.step_timeout_mem _ _ hmem]
      rw [hres, lookup_append_of_none _ _ _ hrn]
      simp [List.lookup]

/-- Witness for `c7_call_timeout_single_resolution`: concrete
instantiations — immediate removal on resolution, late responses
ignored, a recorded outcome persisting, and the never-answered call
ending timed out and deregistered. -/
theorem c7_call_timeout_single_resolution_witness :
    (Corr.step { pending := ["1"], resolved := [] }
      (Corr.Event.callResult "1")).pending = (["1"].erase "1") ∧
    Corr.step { pending := [], resolved := [] }
      (Corr.Event.callResult "1") = { pending := [], resolved := [] } ∧
    (Corr.run { pending := [], resolved := [("1", Corr.Outcome.result)] }
      [Corr.Event.send "2", Corr.Event.callResult "2"]).resolved.lookup "1" =
      some Corr.Outcome.result ∧
    ("1" ∉ (Corr.step (Corr.run (Corr.step
        { pending := [], resolved := [] } (Corr.Event.send "1"))
        [Corr.Event.send "2", Corr.Event.callResult "2"])
        (Corr.Event.timeoutFires "1")).pending ∧
      (Corr.step (Corr.run (Corr.step
        { pending := [], resolved := [] } (Corr.Event.send "1"))
        [Corr.Event.send "2", Corr.Event.callResult "2"])
        (Corr.Event.timeoutFires "1")).resolved.lookup "1" =
        some Corr.Outcome.timeout) := by
  refine ⟨?_, ?_, ?_, ?_⟩
  · exact (c7_call_timeout_single_resolution.2.1 _ "1" (by decide)).1
  · exact (c7_call_timeout_single_resolution.2.2.1 _ "1" (by decide)).1
  · exact c7_call_timeout_single_resolution.2.2.2.1 _ _ "1"
      Corr.Outcome.result rfl
  · exact c7_call_timeout_single_resolution.2.2.2.2 _ "1" _ (by decide) rfl
      (by decide)

theorem CP.lookup_initStore (n : Nat) (k : Int) :
    (CP.initStore n).lookup k =
      if 0 ≤ k ∧ k ≤ (n : Int) then some [] else none := by
  induction n with
  | zero =>
    by_cases hk : k = 0
    · subst hk
      simp [CP.initStore, List.lookup]
    · rw [show CP.initStore 0 = [((0 : Int), [])] from rfl]
      simp only [List.lookup, show (k == (0 : Int)) = false from by simp [hk]]
      rw [if_neg (by omega)]
  | succ m ih =>
    have hsplit : CP.initStore (m + 1) =
        CP.initStore m ++ [(((m + 1 : Nat) : Int), [])] := by
      simp [CP.initStore, List.range_succ]
    rw [hsplit]
    by_cases hin : 0 ≤ k ∧ k ≤ (m : Int)
    · have hsome := ih.trans (if_pos hin)
      rw [lookup_append_of_some _ _ _ _ hsome, if_pos (by omega)]
    · have hnone := ih.trans (if_neg hin)
      rw [lookup_append_of_none _ _ _ hnone]
      by_cases hk : k = ((m + 1 : Nat) : Int)
      · subst hk
        simp only [List.lookup, beq_self_eq_true]
        rw [if_pos (by omega)]
      · simp only [List.lookup, show (k == ((m + 1 : Nat) : Int)) = false
          from by simpa using hk]
        rw [if_neg (by omega)]

theorem CP.handleClear_error_of_lookup_none (cfg : CP.Config)
    (req : CP.ClearRequest) (st : CP.ManagerState) (now c : Int)
    (hreq : req.connectorId = some c)
    (hlook : st.chargingProfiles.lookup c = none) :
    CP.handleClearChargingProfile cfg req st now = Except.error "KeyError" := by
  unfold CP.handleClearChargingProfile
  rw [hreq]
  simp [List.foldlM, CP.storeLookup, hlook, Bind.bind, Except.bind]

/-- C10: `clearProfiles` performs no connector-range check on an
explicitly supplied `connectorId`: the per-connector store holds exactly
the keys 0..N after initialization, and for any explicit `connectorId`
outside that range the unguarded store access raises an uncaught lookup
error (`KeyError`) instead of returning `Accepted` or `Unknown` —
unlike `setProfile`, whose range check answers `Rejected`. -/
theorem c10_clear_no_range_check :
    (∀ (n : Nat) (k : Int),
      ((CP.initStore n).lookup k).isSome ↔ 0 ≤ k ∧ k ≤ (n : Int)) ∧
    (∀ (cfg : CP.Config) (req : CP.ClearRequest) (st : CP.ManagerState)
      (now c : Int),
      req.connectorId = some c →
      st.chargingProfiles.lookup c = none →
      CP.handleClearChargingProfile cfg req st now =
        Except.error "KeyError") ∧
    (∀ (cfg : CP.Config) (req : CP.ClearRequest) (n : Nat) (now c : Int),
      req.connectorId = some c → (c < 0 ∨ (n : Int) < c) →
      CP.handleClearChargingProfile cfg req (CP.initState n) now =
        Except.error "KeyError") ∧
    (∀ (cfg : CP.Config) (st : CP.ManagerState) (c : Int)
      (p : CP.ChargingProfile) (now : Int),
      (c < 0 ∨ c > cfg.numberOfConnectors) →
      CP.handleSetChargingProfile cfg st c p now = ("Rejected", st)) := by
  refine ⟨?_, CP.handleClear_error_of_lookup_none, ?_, ?_⟩
  · intro n k
    rw [CP.lookup_initStore]
    by_cases h : 0 ≤ k ∧ k ≤ (n : Int) <;> simp [h]
  · intro cfg req n now c hreq hout
    refine CP.handleClear_error_of_lookup_none cfg req _ now c hreq ?_
    show (CP.initStore n).lookup c = none
    rw [CP.lookup_initStore, if_neg (by omega)]
  · intro cfg st c p now h
    unfold CP.handleSetChargingProfile
    rw [if_pos h]

/-- Witness for `c10_clear_no_range_check`: on a freshly initialized
one-connector store (keys 0 and 1), clearing with `connectorId = 5`
raises the lookup error, while `setProfile` on connector 5 answers
`Rejected` with the state unchanged. -/
theorem c10_clear_no_range_check_witness :
    CP.handleClearChargingProfile
      { numberOfConnectors := 1, allowedUnitsList := ["Current", "Power"],
        maxStackLevel := 10, maxPeriods := 6, maxPower := 11000,
        maxCurrent := 48, connectorTransactions := [] }
      { id := none, connectorId := some 5, chargingProfilePurpose := none,
        stackLevel := none }
      (CP.initState 1) 1000 = Except.error "KeyError" ∧
    CP.handleSetChargingProfile
      { numberOfConnectors := 1, allowedUnitsList := ["Current", "Power"],
        maxStackLevel := 10, maxPeriods := 6, maxPower := 11000,
        maxCurrent := 48, connectorTransactions := [] }
      (CP.initState 1) 5 cpMaxOnConnector0 1000 =
      ("Rejected", CP.initState 1) := by
  constructor
  · exact c10_clear_no_range_check.2.2.1 _ _ 1 1000 5 rfl (by omega)
  · exact c10_clear_no_range_check.2.2.2 _ _ 5 cpMaxOnConnector0 1000
      (by decide)

set_option maxHeartbeats 1000000 in
theorem MV.power_sample_le (limits : MV.CurrentLimits) (L : ℚ) (ival : Int)
    (st st2 : MV.MeterState) (m : String) (s : MV.Sample)
    (hL : limits.power = some L)
    (hs : MV.generateSampledValue limits ival st m = (st2, some s))
    (hm : s.measurand = "Power.Active.Import") : s.value ≤ L := by
  obtain ⟨pw, cur⟩ := limits
  obtain rfl : pw = some L := hL
  by_cases h1 : m = "Energy.Active.Import.Register"
  · subst h1
    injection hs with hfst hsnd
    injection hsnd with hsample
    subst hsample
    simp at hm
  by_cases h2 : m = "Power.Active.Import"
  · subst h2
    injection hs with hfst hsnd
    injection hsnd with hsample
    subst hsample
    exact inf_le_right
  by_cases h3 : m = "SoC"
  · subst h3
    have hred : MV.generateSampledValue ⟨some L, cur⟩ ival st "SoC" =
        (if ival ≠ 0 then
          (let v := min 100 (st.soc + (1 / 10 : ℚ) * ((ival : ℚ) / 60))
           ({ st with soc := v }, some { measurand := "SoC", value := v }))
        else (st, some { measurand := "SoC", value := st.soc })) := rfl
    rw [hred] at hs
    by_cases hiv : ival ≠ 0
    · rw [if_pos hiv] at hs
      injection hs with hfst hsnd
      injection hsnd with hsample
      subst hsample
      simp at hm
    · rw [if_neg hiv] at hs
      injection hs with hfst hsnd
      injection hsnd with hsample
      subst hsample
      simp at hm
  by_cases h4 : m = "Current.Import"
  · subst h4
    cases cur with
    | none =>
      injection hs with hfst hsnd
      injection hsnd with hsample
      subst hsample
      simp at hm
    | some lc =>
      injection hs with hfst hsnd
      injection hsnd with hsample
      subst hsample
      simp at hm
  by_cases h5 : m = "Voltage"
  · subst h5
    injection hs with hfst hsnd
    injection hsnd with hsample
    subst hsample
    simp at hm
  by_cases h6 : m = "Temperature"
  · subst h6
    injection hs with hfst hsnd
    injection hsnd with hsample
    subst hsample
    simp at hm
  by_cases h7 : m = "Power.Offered"
  · subst h7
    injection hs with hfst hsnd
    injection hsnd with hsample
    subst hsample
    simp at hm
  by_cases h8 : m = "Current.Offered"
  · subst h8
    injection hs with hfst hsnd
    injection hsnd with hsample
    subst hsample
    simp at hm
  by_cases h9 : m = "Power.Factor"
  · subst h9
    injection hs with hfst hsnd
    injection hsnd with hsample
    subst hsample
    simp at hm
  by_cases h10 : m = "Frequency"
  · subst h10
    injection hs with hfst hsnd
    injection hsnd with hsample
    subst hsample
    simp at hm
  by_cases h11 : m = "Energy.Reactive.Import.Register"
  · subst h11
    injection hs with hfst hsnd
    injection hsnd with hsample
    subst hsample
    simp at hm
  by_cases h12 : m = "Power.Reactive.Import"
  · subst h12
    injection hs with hfst hsnd
    injection hsnd with hsample
    subst hsample
    simp at hm
  unfold MV.generateSampledValue at hs
  rw [if_neg h1, if_neg h2, if_neg h3, if_neg h4, if_neg h5, if_neg h6,
    if_neg h7, if_neg h8, if_neg h9, if_neg h10, if_neg h11, if_neg h12] at hs
  injection hs with hfst hsnd
  cases hsnd

/-- C9: with an effective power limit present, the telemetry generator's
power sample equals min(baseline, limit) — and so never exceeds the
limit, whatever the configured measurand list — the energy register is
incremented by that clamped power integrated over the sample interval
(converted to Wh), and a `MeterValueSampleInterval` of zero makes the
loop emit nothing at all. -/
theorem c9_telemetry_clamped :
    (∀ (measurands : List String) (limits : MV.CurrentLimits)
      (st : MV.MeterState) (n : Nat),
      MV.sendMeterValuesLoop 0 measurands limits st n = []) ∧
    (∀ (limits : MV.CurrentLimits) (L : ℚ) (ival : Int) (st : MV.MeterState),
      limits.power = some L →
      MV.generateSampledValue limits ival st "Power.Active.Import" =
        ({ st with powerActiveImport := min st.powerActiveImport L },
          some { measurand := "Power.Active.Import",
                 value := min st.powerActiveImport L })) ∧
    (∀ (limits : MV.CurrentLimits) (L : ℚ) (ival : Int) (st : MV.MeterState),
      limits.power = some L →
      (MV.generateSampledValue limits ival st
        "Energy.Active.Import.Register").1.energyActiveImportRegister =
        st.energyActiveImportRegister +
          min st.powerActiveImport L * (ival : ℚ) / 3600) ∧
    (∀ (limits : MV.CurrentLimits) (L : ℚ) (ival : Int)
      (meas : List String) (st : MV.MeterState) (s : MV.Sample),
      limits.power = some L →
      s ∈ (MV.generateSampledValues limits ival st meas).2 →
      s.measurand = "Power.Active.Import" → s.value ≤ L) := by
  refine ⟨?_, ?_, ?_, ?_⟩
  · intro measurands limits st n
    rfl
  · intro limits L ival st h
    obtain ⟨pw, cur⟩ := limits
    obtain rfl : pw = some L := h
    rfl
  · intro limits L ival st h
    obtain ⟨pw, cur⟩ := limits
    obtain rfl : pw = some L := h
    rfl
  · intro limits L ival meas
    induction meas with
    | nil =>
      intro st s hL hmem hm
      simp [MV.generateSampledValues] at hmem
    | cons m rest ih =>
      intro st s hL hmem hm
      rw [MV.generateSampledValues] at hmem
      rcases hgen : MV.generateSampledValue limits ival st m with ⟨stx, osamp⟩
      rw [hgen] at hmem
      dsimp only at hmem
      rw [List.mem_append] at hmem
      rcases hmem with hmem | hmem
      · cases osamp with
        | none => simp at hmem
        | some s2 =>
          simp at hmem
          subst hmem
          exact MV.power_sample_le limits L ival st stx m s hL hgen hm
      · exact ih stx s hL hmem hm

/-- Witness for `c9_telemetry_clamped`: the 7400 W baseline under a
5000 W effective limit reports exactly 5000 W, increments the energy
register by 5000·60/3600 Wh, and the emitted power sample respects the
limit. -/
theorem c9_telemetry_clamped_witness :
    MV.sendMeterValuesLoop 0 ["Power.Active.Import"]
      { power := some 5000, current := none } MV.initConnector 3 = [] ∧
    MV.generateSampledValue { power := some 5000, current := none } 60
      MV.initConnector "Power.Active.Import" =
      ({ MV.initConnector with
          powerActiveImport := min MV.initConnector.powerActiveImport 5000 },
        some { measurand := "Power.Active.Import",
               value := min MV.initConnector.powerActiveImport 5000 }) ∧
    (MV.generateSampledValue { power := some 5000, current := none } 60
      MV.initConnector "Energy.Active.Import.Register").1.energyActiveImportRegister =
      MV.initConnector.energyActiveImportRegister +
        min MV.initConnector.powerActiveImport 5000 * (60 : ℚ) / 3600 ∧
    (({ measurand := "Power.Active.Import", value := 5000 } : MV.Sample).value
      ≤ (5000 : ℚ)) := by
  refine ⟨c9_telemetry_clamped.1 _ _ _ 3, c9_telemetry_clamped.2.1 _ 5000 60 _ rfl,
    c9_telemetry_clamped.2.2.1 _ 5000 60 _ rfl, ?_⟩
  exact c9_telemetry_clamped.2.2.2 { power := some 5000, current := none }
    5000 60 ["Power.Active.Import"] MV.initConnector
    { measurand := "Power.Active.Import", value := 5000 } rfl (by decide) rfl
